import Mathlib

set_option linter.unusedVariables false

/-!
Shallow embedding of the deployment-orchestration core of aws-syndicate:
`src/syndicate/core/resources/lambda_resource.py` and
`src/syndicate/core/resources/kinesis_resource.py`.

Python dicts are association lists keyed by an enumeration `Key` of the
meta/trigger keys the code reads.  Provider calls are modelled against an
explicit fake-provider state; every provider call and every log statement is
recorded in an event trace.  Python exceptions are modelled by
`Except Err α × St`: the state (including the trace of calls already issued)
survives a raise, exactly as side effects survive a Python exception.
-/

deriving instance DecidableEq for Except

namespace Syndicate

/-- The dictionary keys read anywhere in the two source files.  `S3_PATH_NAME`
is the artifact-path key constant imported from `meta_processor`. -/
inductive Key where
  | iam_role_name | runtime | memory | timeout | func_name
  | S3_PATH_NAME
  | dl_resource_type | dl_resource_name
  | env_variables | subnet_ids | security_group_ids | tracing_mode
  | concurrent_executions | event_sources
  | resource_type
  | target_table | batch_size | target_queue | target_rule
  | target_bucket | s3_events | target_topic | region
  | target_stream | starting_position
  | shard_count
  | resource_name
deriving DecidableEq, Repr

/-- Values stored in a trigger-spec dict. -/
inductive TValue where
  | s (x : String)
  | n (x : Nat)
  | sl (xs : List String)
deriving DecidableEq, Repr

/-- A trigger spec (one element of `event_sources`): a dict. -/
abbrev Trigger : Type := List (Key × TValue)

/-- Values stored in a resource-descriptor meta dict. -/
inductive MValue where
  | s (x : String)
  | n (x : Nat)
  | triggers (ts : List Trigger)
deriving DecidableEq, Repr

/-- A resource descriptor's meta: a dict. -/
abbrev Meta : Type := List (Key × MValue)

/-- `d.get(k)` on a Python dict. -/
def dictGet {v : Type} (d : List (Key × v)) (k : Key) : Option v :=
  (d.find? (fun p => p.1 = k)).map (fun p => p.2)

/-- Python truthiness of a trigger value. -/
def TValue.truthy : TValue → Bool
  | .s x => x ≠ ""
  | .n x => x ≠ 0
  | .sl xs => xs ≠ []

/-- Python truthiness of a meta value. -/
def MValue.truthy : MValue → Bool
  | .s x => x ≠ ""
  | .n x => x ≠ 0
  | .triggers ts => ts ≠ []

/-- Python `str.lower()`: character-wise lowercasing (structural recursion so
that concrete runs reduce inside the kernel). -/
def pyLower (s : String) : String := String.mk (s.data.map Char.toLower)

/-- Python `str()` formatting of a meta value (used by `format`). -/
def pyfmt : MValue → String
  | .s x => x
  | .n x => toString x
  | .triggers _ => "[...]"

/-- The exceptions the embedded code can raise. -/
inductive Err where
  | validationError (resource : String) (missing : List Key)
  | assertionError (msg : String)
  | keyError (k : Key)
  | dispatchKeyError (tag : TValue)
  | clientError (code : String)
  | typeError
deriving DecidableEq, Repr

/-- One provider-facade call, with the arguments the code passes. -/
inductive Call where
  | isFileExists (bucket : String) (key : MValue)
  | getFunction (name : String)
  | checkIfRoleExists (role : String)
  | createLambda (name : String) (func_name : MValue) (role : String)
      (runtime : String) (memory timeout : MValue)
      (s3_bucket : String) (s3_key : MValue)
      (env_vars vpc_sub_nets vpc_security_group : Option MValue)
      (dl_target_arn : Option String) (tracing_mode : Option MValue)
  | sleep (seconds : Nat)
  | getUnresolvedConcurrentExecutions
  | putFunctionConcurrency (name : String) (n : Nat)
  | addEventSource (name arn : String) (batch : TValue) (startPos : Option TValue)
  | addInvocationPermission (name principal arn : String)
  | getQueueUrl (queue account : String)
  | isStreamEnabled (table : String)
  | enableTableStream (table : String)
  | getTableStreamArn (table : String)
  | getRuleArn (rule : String)
  | addRuleTarget (rule arn : String)
  | isBucketExists (bucket : String)
  | configureEventSourceForLambda (bucket lambdaName : String) (events : TValue)
  | createSnsSubscriptionForLambda (arn : String) (topic : TValue) (region : Option TValue)
  | getStream (name : String)
  | attachInlinePolicy (role policy lambdaArn streamArn : String)
  | createStream (name : String) (shards : MValue)
  | deleteLambda (name : String)
  | removeTrigger (name : String)
  | getLogGroupNames
  | deleteLogGroupName (g : String)
  | removeStream (name : String)
deriving DecidableEq, Repr

/-- Whether a provider call mutates provider-side state (create, wiring,
permission grant, delete), as opposed to a pure read or a wait. -/
def Call.isMutation : Call → Bool
  | .createLambda _ _ _ _ _ _ _ _ _ _ _ _ _ => true
  | .putFunctionConcurrency _ _ => true
  | .addEventSource _ _ _ _ => true
  | .addInvocationPermission _ _ _ => true
  | .enableTableStream _ => true
  | .addRuleTarget _ _ => true
  | .configureEventSourceForLambda _ _ _ => true
  | .createSnsSubscriptionForLambda _ _ _ => true
  | .attachInlinePolicy _ _ _ _ => true
  | .createStream _ _ => true
  | .deleteLambda _ => true
  | .removeTrigger _ => true
  | .deleteLogGroupName _ => true
  | .removeStream _ => true
  | _ => false

/-- A trace event: a provider call or a log statement (format string kept,
arguments dropped). -/
inductive Event where
  | call (c : Call)
  | logDebug (m : String)
  | logInfo (m : String)
  | logWarn (m : String)
  | logError (m : String)
deriving DecidableEq, Repr

/-- Whether a trace event is a provider mutation call. -/
def Event.isMutation : Event → Bool
  | .call c => c.isMutation
  | _ => false

/-- The `CONFIG` globals the code reads. -/
structure Config where
  region : String
  account_id : String
  deploy_target_bucket : String
deriving DecidableEq, Repr

/-- One lambda function known to the fake provider: its name, its ARN and the
rest of its `Configuration` dict (opaque). -/
structure LambdaFn where
  name : String
  arn : String
  config : String
deriving DecidableEq, Repr

/-- One kinesis stream known to the fake provider. -/
structure StreamInfo where
  name : String
  arn : String
  status : String
deriving DecidableEq, Repr

/-- The fake provider's state. `deleteLambdaFault` / `removeStreamFault`
inject an arbitrary provider error code into the delete calls, to model
"any other provider error". -/
structure ProviderState where
  s3Files : List (String × MValue)
  functions : List LambdaFn
  roles : List (String × String)
  streams : List StreamInfo
  queues : List String
  buckets : List String
  tablesWithStream : List String
  logGroups : List String
  unresolvedConcurrency : Nat
  deleteLambdaFault : Option String
  removeStreamFault : Option String
deriving DecidableEq, Repr

/-- The whole execution state: the provider state and the event trace.  The
`CONFIG` globals never change, so they are passed as an ambient parameter
rather than carried in the state. -/
structure St where
  prov : ProviderState
  trace : List Event
deriving DecidableEq, Repr

/-- The effect monad: state-passing with Python-style exceptions (the state,
including the trace of calls already issued, survives a raise). -/
def M (α : Type) : Type := St → Except Err α × St

def M.pure {α : Type} (a : α) : M α := fun s => (Except.ok a, s)

def M.bind {α β : Type} (x : M α) (f : α → M β) : M β := fun s =>
  match x s with
  | (Except.ok a, s1) => f a s1
  | (Except.error e, s1) => (Except.error e, s1)

instance : Monad M where
  pure := M.pure
  bind := M.bind

/-- Raise an exception. -/
def throwM {α : Type} (e : Err) : M α := fun s => (Except.error e, s)

/-- Lift an exception-only computation. -/
def liftE {α : Type} (x : Except Err α) : M α := fun s => (x, s)

/-- Append a trace event. -/
def emit (e : Event) : M Unit := fun s =>
  (Except.ok (), { s with trace := s.trace ++ [e] })

/-- A provider read call: records the call, answers from the state. -/
def readOp {α : Type} (c : Call) (f : ProviderState → α) : M α := fun s =>
  (Except.ok (f s.prov), { s with trace := s.trace ++ [Event.call c] })

/-- A provider mutation call: records the call, transforms the state. -/
def mutOp (c : Call) (g : ProviderState → ProviderState) : M Unit := fun s =>
  (Except.ok (),
   { s with prov := g s.prov, trace := s.trace ++ [Event.call c] })

/-- `d[k]` on a Python dict: `KeyError` when absent. -/
def getItem {v : Type} (d : List (Key × v)) (k : Key) : M v :=
  match dictGet d k with
  | some x => M.pure x
  | none => throwM (Err.keyError k)

/-- `d[k]` where the code goes on to use the value as a string
(`.lower()`, name lookup): a non-string raises. -/
def getItemStrM (d : Meta) (k : Key) : M String :=
  match dictGet d k with
  | some (MValue.s x) => M.pure x
  | some _ => throwM Err.typeError
  | none => throwM (Err.keyError k)

/-- `t[k]` on a trigger dict, used as a string. -/
def getItemStrT (t : Trigger) (k : Key) : M String :=
  match dictGet t k with
  | some (TValue.s x) => M.pure x
  | some _ => throwM Err.typeError
  | none => throwM (Err.keyError k)

/-- Modelled from the spec: `validate_params` (syndicate.core.resources.helper,
not under src/): "Validate required fields present in `meta`; missing field →
fail fast before any provider call", raising `ValidationError`. -/
def validate_params {v : Type} (name : String) (d : List (Key × v))
    (required : List Key) : M Unit :=
  let missing := required.filter (fun k => (dictGet d k).isNone)
  if missing = [] then M.pure () else throwM (Err.validationError name missing)

/-- Modelled from the spec: `build_description_obj`
(syndicate.core.resources.helper, not under src/): the DescriptionObject is the
denormalized snapshot { resource_name, resource_meta, provider_response_subset }. -/
structure DescriptionObj (ρ : Type) where
  response : ρ
  resource_name : String
  resource_meta : Meta
deriving DecidableEq, Repr

def build_description_obj {ρ : Type} (response : ρ) (name : String)
    (meta : Meta) : DescriptionObj ρ :=
  ⟨response, name, meta⟩

/-- The fake provider's deterministic ARN for a lambda. -/
def lambdaArnOf (cfg : Config) (name : String) : String :=
  "arn:aws:lambda:" ++ cfg.region ++ ":" ++ cfg.account_id ++ ":function:" ++ name

/-- The fake provider's deterministic ARN for a kinesis stream. -/
def streamArnOf (cfg : Config) (name : String) : String :=
  "arn:aws:kinesis:" ++ cfg.region ++ ":" ++ cfg.account_id ++ ":stream/" ++ name

/-- The fake provider's deterministic ARN for a table's change stream. -/
def tableStreamArnOf (cfg : Config) (table : String) : String :=
  "arn:aws:dynamodb:" ++ cfg.region ++ ":" ++ cfg.account_id ++ ":table/"
    ++ table ++ "/stream"

/-- The fake provider's deterministic ARN for a scheduling rule. -/
def ruleArnOf (cfg : Config) (rule : String) : String :=
  "arn:aws:events:" ++ cfg.region ++ ":" ++ cfg.account_id ++ ":rule/" ++ rule

def logDebug (m : String) : M Unit := emit (Event.logDebug m)
def logInfo (m : String) : M Unit := emit (Event.logInfo m)
def logWarn (m : String) : M Unit := emit (Event.logWarn m)
def logError (m : String) : M Unit := emit (Event.logError m)

/-- `time.sleep(n)`. -/
def sleepM (n : Nat) : M Unit := emit (Event.call (Call.sleep n))

/-- `_S3_CONN.is_file_exists(bucket, key)`. -/
def is_file_exists (bucket : String) (key : MValue) : M Bool :=
  readOp (Call.isFileExists bucket key)
    (fun p => p.s3Files.contains (bucket, key))

/-- `_LAMBDA_CONN.get_function(name)`: `None` when absent, else the function's
record (its `Configuration` holds `FunctionArn` plus an opaque rest). -/
def get_function (name : String) : M (Option LambdaFn) :=
  readOp (Call.getFunction name)
    (fun p => p.functions.find? (fun f => f.name == name))

/-- `CONN.iam().check_if_role_exists(role_name)`: the role ARN or `None`. -/
def check_if_role_exists (role : String) : M (Option String) :=
  readOp (Call.checkIfRoleExists role)
    (fun p => (p.roles.find? (fun r => r.1 == role)).map (fun r => r.2))

/-- `_LAMBDA_CONN.create_lambda(...)`: records the call with all the arguments
the code passes; the fake provider registers the function under its
deterministic ARN. -/
def create_lambda (cfg : Config) (name : String) (func_name : MValue) (role : String)
    (runtime : String) (memory timeout : MValue) (s3_bucket : String)
    (s3_key : MValue) (env_vars vpc_sub_nets vpc_security_group : Option MValue)
    (dl_target_arn : Option String) (tracing_mode : Option MValue) : M Unit :=
  mutOp (Call.createLambda name func_name role runtime memory timeout s3_bucket
          s3_key env_vars vpc_sub_nets vpc_security_group dl_target_arn
          tracing_mode)
    (fun p =>
      { p with functions := ⟨name, lambdaArnOf cfg name, "Configuration"⟩ :: p.functions })

/-- `_LAMBDA_CONN.get_unresolved_concurrent_executions()`. -/
def get_unresolved_concurrent_executions : M Nat :=
  readOp Call.getUnresolvedConcurrentExecutions (fun p => p.unresolvedConcurrency)

/-- `_LAMBDA_CONN.put_function_concurrency(...)`. -/
def put_function_concurrency (name : String) (n : Nat) : M Unit :=
  mutOp (Call.putFunctionConcurrency name n) (fun p => p)

/-- `_LAMBDA_CONN.add_event_source(...)` (start position `None` when the call
omits it). -/
def add_event_source (name arn : String) (batch : TValue)
    (startPos : Option TValue) : M Unit :=
  mutOp (Call.addEventSource name arn batch startPos) (fun p => p)

/-- `_LAMBDA_CONN.add_invocation_permission(...)`. -/
def add_invocation_permission (name principal arn : String) : M Unit :=
  mutOp (Call.addInvocationPermission name principal arn) (fun p => p)

/-- `CONN.sqs().get_queue_url(queue, account)`: a URL when the queue exists,
`None` otherwise. -/
def get_queue_url (queue account : String) : M (Option String) :=
  readOp (Call.getQueueUrl queue account)
    (fun p =>
      if p.queues.contains queue
      then some ("https://sqs/" ++ account ++ "/" ++ queue) else none)

/-- `CONN.dynamodb().is_stream_enabled(table)`. -/
def is_stream_enabled (table : String) : M Bool :=
  readOp (Call.isStreamEnabled table) (fun p => p.tablesWithStream.contains table)

/-- `CONN.dynamodb().enable_table_stream(table)`. -/
def enable_table_stream (table : String) : M Unit :=
  mutOp (Call.enableTableStream table)
    (fun p => { p with tablesWithStream := table :: p.tablesWithStream })

/-- `CONN.dynamodb().get_table_stream_arn(table)`. -/
def get_table_stream_arn (cfg : Config) (table : String) : M String :=
  readOp (Call.getTableStreamArn table) (fun _ => tableStreamArnOf cfg table)

/-- `CONN.cw_events().get_rule_arn(rule)`. -/
def get_rule_arn (cfg : Config) (rule : String) : M String :=
  readOp (Call.getRuleArn rule) (fun _ => ruleArnOf cfg rule)

/-- `CONN.cw_events().add_rule_target(rule, arn)`. -/
def add_rule_target (rule arn : String) : M Unit :=
  mutOp (Call.addRuleTarget rule arn) (fun p => p)

/-- `_S3_CONN.is_bucket_exists(bucket)`. -/
def is_bucket_exists (bucket : String) : M Bool :=
  readOp (Call.isBucketExists bucket) (fun p => p.buckets.contains bucket)

/-- `_S3_CONN.configure_event_source_for_lambda(...)`. -/
def configure_event_source_for_lambda (bucket name : String)
    (events : TValue) : M Unit :=
  mutOp (Call.configureEventSourceForLambda bucket name events) (fun p => p)

/-- External collaborator `create_sns_subscription_for_lambda(...)`. -/
def create_sns_subscription_for_lambda (arn : String) (topic : TValue)
    (region : Option TValue) : M Unit :=
  mutOp (Call.createSnsSubscriptionForLambda arn topic region) (fun p => p)

/-- `CONN.kinesis().get_stream(name)`: `None` when absent, else the stream's
record (the facade exposes the ARN both at top level, as read by
`kinesis_resource.py`, and inside `StreamDescription`, as read by
`lambda_resource.py`). -/
def get_stream (name : String) : M (Option StreamInfo) :=
  readOp (Call.getStream name)
    (fun p => p.streams.find? (fun st => st.name == name))

/-- `CONN.iam().attach_inline_policy(...)`: the policy document is determined
by the role, policy name, lambda ARN and stream ARN recorded in the call. -/
def attach_inline_policy (role policy lambdaArn streamArn : String) : M Unit :=
  mutOp (Call.attachInlinePolicy role policy lambdaArn streamArn) (fun p => p)

/-- `_KINESIS_CONN.create_stream(...)`: the fake provider registers the stream
under its deterministic ARN, in the transitional `CREATING` status. -/
def create_stream (cfg : Config) (name : String) (shards : MValue) : M Unit :=
  mutOp (Call.createStream name shards)
    (fun p =>
      { p with streams := ⟨name, streamArnOf cfg name, "CREATING"⟩ :: p.streams })

/-- `_LAMBDA_CONN.delete_lambda(name)`: raises `ClientError` with an injected
fault code when one is set, raises `ResourceNotFoundException` when the
function is absent, else deletes it.  The call is traced even when it raises. -/
def delete_lambda (name : String) : M Unit := fun s =>
  let s1 := { s with trace := s.trace ++ [Event.call (Call.deleteLambda name)] }
  match s.prov.deleteLambdaFault with
  | some code => (Except.error (Err.clientError code), s1)
  | none =>
    if (s.prov.functions.find? (fun f => f.name == name)).isSome then
      (Except.ok (),
       { s1 with prov :=
          { s1.prov with functions := s1.prov.functions.filter (fun f => f.name != name) } })
    else
      (Except.error (Err.clientError "ResourceNotFoundException"), s1)

/-- `_LAMBDA_CONN.remove_trigger(name)`. -/
def remove_trigger (name : String) : M Unit :=
  mutOp (Call.removeTrigger name) (fun p => p)

/-- `_CW_LOGS_CONN.get_log_group_names()`. -/
def get_log_group_names : M (List String) :=
  readOp Call.getLogGroupNames (fun p => p.logGroups)

/-- `_CW_LOGS_CONN.delete_log_group_name(g)`. -/
def delete_log_group_name (g : String) : M Unit :=
  mutOp (Call.deleteLogGroupName g)
    (fun p => { p with logGroups := p.logGroups.filter (fun x => x != g) })

/-- `_KINESIS_CONN.remove_stream(stream_name)`: mirror of `delete_lambda`. -/
def remove_stream (name : String) : M Unit := fun s =>
  let s1 := { s with trace := s.trace ++ [Event.call (Call.removeStream name)] }
  match s.prov.removeStreamFault with
  | some code => (Except.error (Err.clientError code), s1)
  | none =>
    if (s.prov.streams.find? (fun st => st.name == name)).isSome then
      (Except.ok (),
       { s1 with prov :=
          { s1.prov with streams := s1.prov.streams.filter (fun st => st.name != name) } })
    else
      (Except.error (Err.clientError "ResourceNotFoundException"), s1)

/-- `try: body except ClientError as e: handler(e.response.Error.Code)`. -/
def tryClientError (body : M Unit) (handler : String → M Unit) : M Unit := fun s =>
  match body s with
  | (Except.ok a, s1) => (Except.ok a, s1)
  | (Except.error (Err.clientError code), s1) => handler code s1
  | (Except.error e, s1) => (Except.error e, s1)

/-- `describe_lambda` (lambda_resource.py:44): pops `FunctionArn` out of the
response's `Configuration` and keys the description by it. -/
def describe_lambda (name : String) (meta : Meta) (response : LambdaFn) :
    List (String × DescriptionObj String) :=
  [(response.arn, build_description_obj response.config name meta)]

/-- The dead-letter-target computation inlined at lambda_resource.py:74-82:
`meta.get('dl_resource_type')`, lowercased when truthy (`.lower()` on a
non-string raises), `meta.get('dl_resource_name')`, and the interpolation
`'arn:aws:{0}:{1}:{2}:{3}'.format(dl_type, region, account_id, dl_name)`
guarded by `if dl_type and dl_name`. -/
def dl_target_arn_of (cfg : Config) (meta : Meta) : Except Err (Option String) :=
  match dictGet meta Key.dl_resource_type with
  | some v =>
    if v.truthy then
      match v with
      | MValue.s ty =>
        let ty := pyLower ty
        Except.ok
          (match dictGet meta Key.dl_resource_name with
           | some w =>
             if w.truthy then
               some ("arn:aws:" ++ ty ++ ":" ++ cfg.region ++ ":"
                      ++ cfg.account_id ++ ":" ++ pyfmt w)
             else none
           | none => none)
      | _ => Except.error Err.typeError
    else Except.ok none
  | none => Except.ok none

/-- `_create_dynamodb_trigger_from_meta` (lambda_resource.py:127). -/
def _create_dynamodb_trigger_from_meta (cfg : Config)
    (lambda_name lambda_arn role_name : String)
    (trigger_meta : Trigger) : M Unit := do
  validate_params lambda_name trigger_meta [Key.target_table, Key.batch_size]
  let table_name ← getItemStrT trigger_meta Key.target_table
  let enabled ← is_stream_enabled table_name
  if !enabled then enable_table_stream table_name else M.pure ()
  let stream ← get_table_stream_arn cfg table_name
  let batch ← getItem trigger_meta Key.batch_size
  add_event_source lambda_name stream batch (some (TValue.s "LATEST"))
  logInfo "Lambda %s subscribed to dynamodb table %s"

/-- `_create_sqs_trigger_from_meta` (lambda_resource.py:147). -/
def _create_sqs_trigger_from_meta (cfg : Config)
    (lambda_name lambda_arn role_name : String)
    (trigger_meta : Trigger) : M Unit := do
  validate_params lambda_name trigger_meta [Key.target_queue, Key.batch_size]
  let target_queue ← getItemStrT trigger_meta Key.target_queue
  let url ← get_queue_url target_queue cfg.account_id
  if url.isNone then
    logDebug "Queue %s does not exist"
  else do
    let queue_arn := "arn:aws:sqs:" ++ cfg.region ++ ":" ++ cfg.account_id
                      ++ ":" ++ target_queue
    let batch ← getItem trigger_meta Key.batch_size
    add_event_source lambda_name queue_arn batch none
    logInfo "Lambda %s subscribed to SQS queue %s"

/-- `_create_cloud_watch_trigger_from_meta` (lambda_resource.py:168). -/
def _create_cloud_watch_trigger_from_meta (cfg : Config)
    (lambda_name lambda_arn role_name : String)
    (trigger_meta : Trigger) : M Unit := do
  validate_params lambda_name trigger_meta [Key.target_rule]
  let rule_name ← getItemStrT trigger_meta Key.target_rule
  let rule_arn ← get_rule_arn cfg rule_name
  add_rule_target rule_name lambda_arn
  add_invocation_permission lambda_name "events.amazonaws.com" rule_arn
  logInfo "Lambda %s subscribed to cloudwatch rule %s"

/-- `_create_s3_trigger_from_meta` (lambda_resource.py:183). -/
def _create_s3_trigger_from_meta (cfg : Config)
    (lambda_name lambda_arn role_name : String)
    (trigger_meta : Trigger) : M Unit := do
  validate_params lambda_name trigger_meta [Key.target_bucket, Key.s3_events]
  let target_bucket ← getItemStrT trigger_meta Key.target_bucket
  let ex ← is_bucket_exists target_bucket
  if !ex then
    logError "S3 bucket {0} event source for lambda {1} was not created."
  else do
    add_invocation_permission lambda_name "s3.amazonaws.com"
      ("arn:aws:s3:::" ++ target_bucket)
    let evs ← getItem trigger_meta Key.s3_events
    configure_event_source_for_lambda target_bucket lambda_name evs
    logInfo "Lambda %s subscribed to S3 bucket %s"

/-- `_create_sns_topic_trigger_from_meta` (lambda_resource.py:205). -/
def _create_sns_topic_trigger_from_meta (cfg : Config)
    (lambda_name lambda_arn role_name : String)
    (trigger_meta : Trigger) : M Unit := do
  validate_params lambda_name trigger_meta [Key.target_topic]
  let topic_name ← getItem trigger_meta Key.target_topic
  let region := dictGet trigger_meta Key.region
  create_sns_subscription_for_lambda lambda_arn topic_name region
  let _ ← getItem trigger_meta Key.target_topic
  logInfo "Lambda %s subscribed to sns topic %s"

/-- `_add_kinesis_event_source` (lambda_resource.py:275). -/
def _add_kinesis_event_source (lambda_name stream_arn : String)
    (trigger_meta : Trigger) : M Unit := do
  let batch ← getItem trigger_meta Key.batch_size
  let sp ← getItem trigger_meta Key.starting_position
  add_event_source lambda_name stream_arn batch (some sp)

/-- `_create_kinesis_stream_trigger_from_meta` (lambda_resource.py:218). -/
def _create_kinesis_stream_trigger_from_meta (cfg : Config)
    (lambda_name lambda_arn role_name : String)
    (trigger_meta : Trigger) : M Unit := do
  validate_params lambda_name trigger_meta
    [Key.target_stream, Key.batch_size, Key.starting_position]
  let stream_name ← getItemStrT trigger_meta Key.target_stream
  let stream ← get_stream stream_name
  match stream with
  | none => throwM Err.typeError
  | some st => do
      let stream_arn := st.arn
      if st.status != "ACTIVE" then do
        logDebug "Kinesis stream %s is not in active state, waiting for activation..."
        sleepM 120
      else M.pure ()
      let policy_name := stream_name ++ "KinesisTo" ++ lambda_name ++ "Lambda"
      attach_inline_policy role_name policy_name lambda_arn stream_arn
      logDebug "Inline policy %s is attached to role %s"
      logDebug "Waiting for activation policy %s..."
      sleepM 10
      _add_kinesis_event_source lambda_name stream_arn trigger_meta
      logInfo "Lambda %s subscribed to kinesis stream %s"

/-- The `CREATE_TRIGGER` dispatch table (lambda_resource.py:281). -/
def CREATE_TRIGGER (tag : TValue) :
    Option (Config → String → String → String → Trigger → M Unit) :=
  match tag with
  | TValue.s "dynamodb_trigger" => some _create_dynamodb_trigger_from_meta
  | TValue.s "cloudwatch_rule_trigger" => some _create_cloud_watch_trigger_from_meta
  | TValue.s "s3_trigger" => some _create_s3_trigger_from_meta
  | TValue.s "sns_topic_trigger" => some _create_sns_topic_trigger_from_meta
  | TValue.s "kinesis_trigger" => some _create_kinesis_stream_trigger_from_meta
  | TValue.s "sqs_trigger" => some _create_sqs_trigger_from_meta
  | _ => none

/-- One iteration of the loop at lambda_resource.py:118-121:
`func = CREATE_TRIGGER[trigger_meta['resource_type']]; func(...)` —
a missing table entry is a `KeyError`. -/
def dispatchTrigger (cfg : Config) (lambda_name lambda_arn role_name : String)
    (trigger_meta : Trigger) : M Unit := do
  let tag ← getItem trigger_meta Key.resource_type
  match CREATE_TRIGGER tag with
  | some func => func cfg lambda_name lambda_arn role_name trigger_meta
  | none => throwM (Err.dispatchKeyError tag)

/-- The sequential `for trigger_meta in meta.get('event_sources')` loop. -/
def runTriggers (cfg : Config) (lambda_name lambda_arn role_name : String) :
    List Trigger → M Unit
  | [] => M.pure ()
  | t :: ts => do
      dispatchTrigger cfg lambda_name lambda_arn role_name t
      runTriggers cfg lambda_name lambda_arn role_name ts

/-- `req_params` at lambda_resource.py:54: the required lambda meta fields. -/
def req_params : List Key :=
  [Key.iam_role_name, Key.runtime, Key.memory, Key.timeout, Key.func_name]

/-- The concurrency-override block of `_create_lambda_from_meta`
(lambda_resource.py:103-115): apply `concurrent_executions` only when it fits
within the account's unreserved headroom, else warn. -/
def concurrency_section (name : String) (meta : Meta) : M Unit :=
  match dictGet meta Key.concurrent_executions with
  | some cv =>
    if cv.truthy then do
      logDebug "Going to set up concurrency executions"
      let unresolved ← get_unresolved_concurrent_executions
      match cv with
      | MValue.n con_exec =>
        if con_exec ≤ unresolved then do
          put_function_concurrency name con_exec
          logDebug "Concurrency is enabled for %s lambda"
        else
          logWarn "Account does not have any unresolved executions. Current size - %s"
      | _ => throwM Err.typeError
    else M.pure ()
  | none => M.pure ()

/-- The trigger-wiring block of `_create_lambda_from_meta`
(lambda_resource.py:117-121): the sequential dispatch loop over
`event_sources`. -/
def event_sources_section (cfg : Config) (name lambda_arn role_name : String)
    (meta : Meta) : M Unit :=
  match dictGet meta Key.event_sources with
  | some ev =>
    if ev.truthy then
      match ev with
      | MValue.triggers ts => runTriggers cfg name lambda_arn role_name ts
      | _ => throwM Err.typeError
    else M.pure ()
  | none => M.pure ()

/-- `_create_lambda_from_meta` (lambda_resource.py:53). -/
def _create_lambda_from_meta (cfg : Config) (name : String) (meta : Meta) :
    M (List (String × DescriptionObj String)) := do
  validate_params name meta req_params
  let key ← getItem meta Key.S3_PATH_NAME
  let ex ← is_file_exists cfg.deploy_target_bucket key
  if !ex then
    throwM (Err.assertionError "Deployment package %s does not exist in %s bucket")
  else do
  let response ← get_function name
  match response with
  | some r => do
      logWarn "%s lambda exists."
      M.pure (describe_lambda name meta r)
  | none => do
      let role_name ← getItemStrM meta Key.iam_role_name
      let role_arn ← check_if_role_exists role_name
      match role_arn with
      | none => throwM (Err.assertionError "Role {0} does not exist.")
      | some role_arn => do
          let dl_target_arn ← liftE (dl_target_arn_of cfg meta)
          let func_name ← getItem meta Key.func_name
          let runtime ← getItemStrM meta Key.runtime
          let memory ← getItem meta Key.memory
          let timeout ← getItem meta Key.timeout
          create_lambda cfg name func_name role_arn (pyLower runtime) memory timeout
            cfg.deploy_target_bucket key
            (dictGet meta Key.env_variables)
            (dictGet meta Key.subnet_ids)
            (dictGet meta Key.security_group_ids)
            dl_target_arn
            (dictGet meta Key.tracing_mode)
          sleepM 10
          let response2 ← get_function name
          match response2 with
          | none => throwM Err.typeError
          | some r2 => do
              let lambda_arn := r2.arn
              concurrency_section name meta
              event_sources_section cfg name lambda_arn role_name meta
              logInfo "Created lambda %s."
              M.pure (describe_lambda name meta r2)

/-- `split('/')[-1]` as used at lambda_resource.py:304: the final
slash-separated segment, i.e. the characters after the last `'/'` (the whole
string when it has no `'/'`; empty when it ends in `'/'` — exactly Python's
`split('/')[-1]`).  Written as a fold so concrete runs reduce in the kernel. -/
def lastSegment (g : String) : String :=
  String.mk (g.data.foldl (fun acc c => if c = '/' then [] else acc ++ [c]) [])

/-- The loop at lambda_resource.py:303-305: delete each listed log group whose
final slash-segment equals the lambda's name. -/
def deleteMatchingLogGroups (lambda_name : String) : List String → M Unit
  | [] => M.pure ()
  | g :: gs => do
      if lambda_name == lastSegment g then delete_log_group_name g
      else M.pure ()
      deleteMatchingLogGroups lambda_name gs

/-- `_remove_lambda` (lambda_resource.py:297). -/
def _remove_lambda {ρ : Type} (arn : String) (config : DescriptionObj ρ) : M Unit :=
  let lambda_name := config.resource_name
  tryClientError
    (do
      delete_lambda lambda_name
      remove_trigger lambda_name
      let group_names ← get_log_group_names
      deleteMatchingLogGroups lambda_name group_names
      logInfo "Lambda %s was removed.")
    (fun code =>
      if code == "ResourceNotFoundException" then
        logWarn "Lambda %s is not found"
      else throwM (Err.clientError code))

/-- `_remove_kinesis_stream` (kinesis_resource.py:36). -/
def _remove_kinesis_stream {ρ : Type} (arn : String) (config : DescriptionObj ρ) : M Unit :=
  let stream_name := config.resource_name
  tryClientError
    (do
      remove_stream stream_name
      logInfo "Kinesis stream %s was removed.")
    (fun code =>
      if code == "ResourceNotFoundException" then
        logWarn "Kinesis stream %s is not found"
      else throwM (Err.clientError code))

/-- The creation tail of `_create_kinesis_stream_from_meta`
(kinesis_resource.py:62-68), reached both when the stream is absent and after
the fixed deletion wait. -/
def kinesisCreateAndDescribe (cfg : Config) (name : String) (meta : Meta) :
    M (List (String × DescriptionObj StreamInfo)) := do
  let shards ← getItem meta Key.shard_count
  create_stream cfg name shards
  logInfo "Created kinesis stream %s."
  let response ← get_stream name
  match response with
  | none => throwM Err.typeError
  | some st => M.pure [(st.arn, build_description_obj st name meta)]

/-- `_create_kinesis_stream_from_meta` (kinesis_resource.py:49). -/
def _create_kinesis_stream_from_meta (cfg : Config) (name : String) (meta : Meta) :
    M (List (String × DescriptionObj StreamInfo)) := do
  let response ← get_stream name
  match response with
  | some st =>
    if st.status == "DELETING" then do
      logDebug "Waiting for deletion kinesis stream %s..."
      sleepM 120
      kinesisCreateAndDescribe cfg name meta
    else do
      logWarn "%s kinesis stream exists"
      M.pure [(st.arn, build_description_obj st name meta)]
  | none => kinesisCreateAndDescribe cfg name meta

/-- Run an embedded computation on a config and provider state, with an empty
trace: the result and the final state (whose trace lists every provider call
and log statement the run issued, in order). -/
def runOn {α : Type} (m : M α) (p : ProviderState) : Except Err α × St :=
  m ⟨p, []⟩

/-- The six trigger-kind tags registered in `CREATE_TRIGGER`. -/
def knownTriggerTags : List String :=
  ["dynamodb_trigger", "cloudwatch_rule_trigger", "s3_trigger",
   "sns_topic_trigger", "kinesis_trigger", "sqs_trigger"]

/-! Sample inputs used by the concrete witnesses and counterexamples. -/

/-- A sample `CONFIG`. -/
def cfg0 : Config := ⟨"r1", "a1", "b1"⟩

/-- The §8 scenario descriptor meta: `fn1` with an `sqs_trigger` on `q1`. -/
def metaFn1 : Meta :=
  [(Key.iam_role_name, MValue.s "role1"), (Key.runtime, MValue.s "Python"),
   (Key.memory, MValue.n 128), (Key.timeout, MValue.n 30),
   (Key.func_name, MValue.s "handler"), (Key.S3_PATH_NAME, MValue.s "pkg.zip"),
   (Key.event_sources, MValue.triggers
     [[(Key.resource_type, TValue.s "sqs_trigger"),
       (Key.target_queue, TValue.s "q1"), (Key.batch_size, TValue.n 10)]])]

/-- A sample provider state: artifact uploaded, role present, queue `q1`
present, nothing else. -/
def prov0 : ProviderState :=
  { s3Files := [("b1", MValue.s "pkg.zip")], functions := [],
    roles := [("role1", "arn:role1")], streams := [], queues := ["q1"],
    buckets := [], tablesWithStream := [], logGroups := [],
    unresolvedConcurrency := 0, deleteLambdaFault := none,
    removeStreamFault := none }

/-! ## Unfolding lemmas for the effect monad -/

theorem bind_eq {α β : Type} (x : M α) (f : α → M β) : x >>= f = M.bind x f := rfl

theorem bind_ok {α β : Type} {x : M α} {f : α → M β} {s s1 : St} {a : α}
    (h : x s = (Except.ok a, s1)) : (x >>= f) s = f a s1 := by
  show M.bind x f s = _
  unfold M.bind
  rw [h]

theorem bind_error {α β : Type} {x : M α} {f : α → M β} {s s1 : St} {e : Err}
    (h : x s = (Except.error e, s1)) : (x >>= f) s = (Except.error e, s1) := by
  show M.bind x f s = _
  unfold M.bind
  rw [h]

theorem tryClientError_err {body : M Unit} {handler : String → M Unit}
    {s s1 : St} {code : String}
    (h : body s = (Except.error (Err.clientError code), s1)) :
    tryClientError body handler s = handler code s1 := by
  unfold tryClientError
  rw [h]

theorem tryClientError_ok {body : M Unit} {handler : String → M Unit}
    {s s1 : St} {a : Unit} (h : body s = (Except.ok a, s1)) :
    tryClientError body handler s = (Except.ok a, s1) := by
  unfold tryClientError
  rw [h]

/-! ## Further sample inputs for witnesses and counterexamples -/

/-- `metaFn1` with the `runtime` required field missing. -/
def metaNoRuntime : Meta :=
  [(Key.iam_role_name, MValue.s "role1"),
   (Key.memory, MValue.n 128), (Key.timeout, MValue.n 30),
   (Key.func_name, MValue.s "handler"), (Key.S3_PATH_NAME, MValue.s "pkg.zip")]

/-- All five validated required fields present, but no artifact-path key. -/
def metaNoS3 : Meta :=
  [(Key.iam_role_name, MValue.s "role1"), (Key.runtime, MValue.s "Python"),
   (Key.memory, MValue.n 128), (Key.timeout, MValue.n 30),
   (Key.func_name, MValue.s "handler")]

/-- A sample sqs trigger spec on queue `q1` with batch size 10. -/
def trigSqs : Trigger :=
  [(Key.resource_type, TValue.s "sqs_trigger"),
   (Key.target_queue, TValue.s "q1"), (Key.batch_size, TValue.n 10)]

/-- A trigger spec with a tag outside the dispatch table. -/
def trigBogus : Trigger :=
  [(Key.resource_type, TValue.s "bogus_trigger"),
   (Key.target_queue, TValue.s "q1"), (Key.batch_size, TValue.n 10)]

/-! ## Claim theorems -/

/-- C2: for every descriptor whose meta is missing at least one of the
required fields (`iam_role_name`, `runtime`, `memory`, `timeout`,
`func_name`), function reconciliation raises a `ValidationError`, and the
event trace is empty — in particular no provider mutation call is issued
before the failure. -/
theorem claim_C2_validation_first (cfg : Config) (name : String) (meta : Meta)
    (p : ProviderState) (h : ∃ k ∈ req_params, dictGet meta k = none) :
    req_params.filter (fun k => (dictGet meta k).isNone) ≠ [] ∧
      runOn (_create_lambda_from_meta cfg name meta) p
        = (Except.error (Err.validationError name
             (req_params.filter (fun k => (dictGet meta k).isNone))),
           ⟨p, []⟩) := by
  have hm : req_params.filter (fun k => (dictGet meta k).isNone) ≠ [] := by
    obtain ⟨k, hk, hnone⟩ := h
    intro hemp
    have hmem : k ∈ req_params.filter (fun k => (dictGet meta k).isNone) := by
      rw [List.mem_filter]
      exact ⟨hk, by simp [hnone]⟩
    rw [hemp] at hmem
    exact absurd hmem (List.not_mem_nil k)
  refine ⟨hm, ?_⟩
  have hv : validate_params name meta req_params (⟨p, []⟩ : St)
      = (Except.error (Err.validationError name
           (req_params.filter (fun k => (dictGet meta k).isNone))),
         ⟨p, []⟩) := by
    unfold validate_params
    rw [if_neg hm]
    rfl
  show (_create_lambda_from_meta cfg name meta) ⟨p, []⟩ = _
  unfold _create_lambda_from_meta
  rw [bind_error hv]

/-- Witness for C2 at a concrete input: `metaNoRuntime` lacks `runtime`. -/
theorem claim_C2_validation_first_witness :
    req_params.filter (fun k => (dictGet metaNoRuntime k).isNone) ≠ [] ∧
      runOn (_create_lambda_from_meta cfg0 "fn1" metaNoRuntime) prov0
        = (Except.error (Err.validationError "fn1"
             (req_params.filter (fun k => (dictGet metaNoRuntime k).isNone))),
           ⟨prov0, []⟩) :=
  claim_C2_validation_first cfg0 "fn1" metaNoRuntime prov0
    ⟨Key.runtime, by decide, by decide⟩

/-- C9: for every descriptor whose meta has all five validated required fields
but lacks the artifact-path key `S3_PATH_NAME`, reconciliation fails with a
raw `KeyError` on that key — not a `ValidationError` — and the event trace is
empty, so the failure occurs before any provider call at all. -/
theorem claim_C9_artifact_key_error (cfg : Config) (name : String) (meta : Meta)
    (p : ProviderState)
    (hv : req_params.filter (fun k => (dictGet meta k).isNone) = [])
    (hkey : dictGet meta Key.S3_PATH_NAME = none) :
    runOn (_create_lambda_from_meta cfg name meta) p
      = (Except.error (Err.keyError Key.S3_PATH_NAME), ⟨p, []⟩) := by
  have h1 : validate_params name meta req_params (⟨p, []⟩ : St)
      = (Except.ok (), ⟨p, []⟩) := by
    unfold validate_params
    rw [hv]
    rfl
  have h2 : getItem meta Key.S3_PATH_NAME (⟨p, []⟩ : St)
      = (Except.error (Err.keyError Key.S3_PATH_NAME), ⟨p, []⟩) := by
    unfold getItem
    rw [hkey]
    rfl
  show (_create_lambda_from_meta cfg name meta) ⟨p, []⟩ = _
  unfold _create_lambda_from_meta
  rw [bind_ok h1, bind_error h2]

/-- Witness for C9 at a concrete input: `metaNoS3` validates but has no
artifact-path key. -/
theorem claim_C9_artifact_key_error_witness :
    runOn (_create_lambda_from_meta cfg0 "fn1" metaNoS3) prov0
      = (Except.error (Err.keyError Key.S3_PATH_NAME), ⟨prov0, []⟩) :=
  claim_C9_artifact_key_error cfg0 "fn1" metaNoS3 prov0 (by decide) (by decide)

/-- C5: the trigger dispatch table is defined on exactly the six known
trigger-kind tags; for a spec whose tag has a table entry, the dispatch loop
body invokes exactly that binder on the spec; for a spec whose tag has no
entry, the loop body fails with a `KeyError`-style dispatch error instead of
silently skipping the spec. -/
theorem claim_C5_trigger_dispatch_closure :
    (∀ tag : String,
       (CREATE_TRIGGER (TValue.s tag)).isSome = true ↔ tag ∈ knownTriggerTags)
    ∧ (∀ (cfg : Config) (lname larn role : String) (t : Trigger) (tag : TValue)
         (f : Config → String → String → String → Trigger → M Unit) (s : St),
         dictGet t Key.resource_type = some tag →
         CREATE_TRIGGER tag = some f →
         dispatchTrigger cfg lname larn role t s = f cfg lname larn role t s)
    ∧ (∀ (cfg : Config) (lname larn role : String) (t : Trigger) (tag : TValue)
         (s : St),
         dictGet t Key.resource_type = some tag →
         CREATE_TRIGGER tag = none →
         dispatchTrigger cfg lname larn role t s
           = (Except.error (Err.dispatchKeyError tag), s)) := by
  refine ⟨?_, ?_, ?_⟩
  · intro tag
    constructor
    · intro h
      unfold CREATE_TRIGGER at h
      split at h
      all_goals simp_all [knownTriggerTags]
    · intro h
      simp only [knownTriggerTags, List.mem_cons, List.not_mem_nil, or_false] at h
      rcases h with rfl | rfl | rfl | rfl | rfl | rfl <;> rfl
  · intro cfg lname larn role t tag f s h1 h2
    have hg : getItem t Key.resource_type s = (Except.ok tag, s) := by
      unfold getItem
      rw [h1]
      rfl
    unfold dispatchTrigger
    rw [bind_ok hg, h2]
  · intro cfg lname larn role t tag s h1 h2
    have hg : getItem t Key.resource_type s = (Except.ok tag, s) := by
      unfold getItem
      rw [h1]
      rfl
    unfold dispatchTrigger
    rw [bind_ok hg, h2]
    rfl

/-- Witness for C5 at concrete inputs: the known `sqs_trigger` tag dispatches
to the sqs binder; the unknown `bogus_trigger` tag raises a dispatch error. -/
theorem claim_C5_trigger_dispatch_closure_witness :
    dispatchTrigger cfg0 "fn1" "arn1" "role1" trigSqs ⟨prov0, []⟩
      = _create_sqs_trigger_from_meta cfg0 "fn1" "arn1" "role1" trigSqs ⟨prov0, []⟩
    ∧ dispatchTrigger cfg0 "fn1" "arn1" "role1" trigBogus ⟨prov0, []⟩
      = (Except.error (Err.dispatchKeyError (TValue.s "bogus_trigger")),
         ⟨prov0, []⟩) :=
  ⟨claim_C5_trigger_dispatch_closure.2.1 cfg0 "fn1" "arn1" "role1" trigSqs
     (TValue.s "sqs_trigger") _create_sqs_trigger_from_meta ⟨prov0, []⟩
     (by decide) rfl,
   claim_C5_trigger_dispatch_closure.2.2 cfg0 "fn1" "arn1" "role1" trigBogus
     (TValue.s "bogus_trigger") ⟨prov0, []⟩ (by decide) rfl⟩

/-- C4: for every resource identifier, when the provider's delete reports the
resource as not found (`ResourceNotFoundException` — whether because the
resource is absent or because the provider answers with that code), removal
completes without raising and logs a warning; for any other provider error
code, removal re-raises that error unchanged.  Both for the function remover
and the stream remover. -/
theorem claim_C4_removal_tolerance :
    (∀ (ρ : Type) (arn : String) (config : DescriptionObj ρ) (p : ProviderState),
       p.deleteLambdaFault = none →
       p.functions.find? (fun f => f.name == config.resource_name) = none →
       runOn (_remove_lambda arn config) p
         = (Except.ok (),
            ⟨p, [Event.call (Call.deleteLambda config.resource_name),
                 Event.logWarn "Lambda %s is not found"]⟩))
    ∧ (∀ (ρ : Type) (arn : String) (config : DescriptionObj ρ) (p : ProviderState)
         (code : String),
       p.deleteLambdaFault = some code → code ≠ "ResourceNotFoundException" →
       runOn (_remove_lambda arn config) p
         = (Except.error (Err.clientError code),
            ⟨p, [Event.call (Call.deleteLambda config.resource_name)]⟩))
    ∧ (∀ (ρ : Type) (arn : String) (config : DescriptionObj ρ) (p : ProviderState),
       p.removeStreamFault = none →
       p.streams.find? (fun st => st.name == config.resource_name) = none →
       runOn (_remove_kinesis_stream arn config) p
         = (Except.ok (),
            ⟨p, [Event.call (Call.removeStream config.resource_name),
                 Event.logWarn "Kinesis stream %s is not found"]⟩))
    ∧ (∀ (ρ : Type) (arn : String) (config : DescriptionObj ρ) (p : ProviderState)
         (code : String),
       p.removeStreamFault = some code → code ≠ "ResourceNotFoundException" →
       runOn (_remove_kinesis_stream arn config) p
         = (Except.error (Err.clientError code),
            ⟨p, [Event.call (Call.removeStream config.resource_name)]⟩)) := by
  refine ⟨?_, ?_, ?_, ?_⟩
  · intro ρ arn config p hf hfn
    have hdel : delete_lambda config.resource_name (⟨p, []⟩ : St)
        = (Except.error (Err.clientError "ResourceNotFoundException"),
           ⟨p, [Event.call (Call.deleteLambda config.resource_name)]⟩) := by
      unfold delete_lambda
      rw [hf, hfn]
      rfl
    show _remove_lambda arn config ⟨p, []⟩ = _
    unfold _remove_lambda
    rw [tryClientError_err (bind_error hdel)]
    simp [logWarn, emit]
  · intro ρ arn config p code hf hcode
    have hdel : delete_lambda config.resource_name (⟨p, []⟩ : St)
        = (Except.error (Err.clientError code),
           ⟨p, [Event.call (Call.deleteLambda config.resource_name)]⟩) := by
      unfold delete_lambda
      rw [hf]
      rfl
    show _remove_lambda arn config ⟨p, []⟩ = _
    unfold _remove_lambda
    rw [tryClientError_err (bind_error hdel)]
    rw [if_neg (by simpa using hcode)]
    rfl
  · intro ρ arn config p hf hfn
    have hdel : remove_stream config.resource_name (⟨p, []⟩ : St)
        = (Except.error (Err.clientError "ResourceNotFoundException"),
           ⟨p, [Event.call (Call.removeStream config.resource_name)]⟩) := by
      unfold remove_stream
      rw [hf, hfn]
      rfl
    show _remove_kinesis_stream arn config ⟨p, []⟩ = _
    unfold _remove_kinesis_stream
    rw [tryClientError_err (bind_error hdel)]
    simp [logWarn, emit]
  · intro ρ arn config p code hf hcode
    have hdel : remove_stream config.resource_name (⟨p, []⟩ : St)
        = (Except.error (Err.clientError code),
           ⟨p, [Event.call (Call.removeStream config.resource_name)]⟩) := by
      unfold remove_stream
      rw [hf]
      rfl
    show _remove_kinesis_stream arn config ⟨p, []⟩ = _
    unfold _remove_kinesis_stream
    rw [tryClientError_err (bind_error hdel)]
    rw [if_neg (by simpa using hcode)]
    rfl

/-- A sample description record for function/stream `fn1`, as consumed by the
removers. -/
def descFn1 : DescriptionObj String := ⟨"Configuration", "fn1", []⟩

/-- Witness for C4 at concrete inputs: `fn1` absent → warning, not an error;
injected `AccessDenied` → re-raised unchanged. -/
theorem claim_C4_removal_tolerance_witness :
    runOn (_remove_lambda "arn1" descFn1) prov0
      = (Except.ok (),
         ⟨prov0, [Event.call (Call.deleteLambda "fn1"),
                  Event.logWarn "Lambda %s is not found"]⟩)
    ∧ runOn (_remove_kinesis_stream "arn1"  descFn1)
        { prov0 with removeStreamFault := some "AccessDenied" }
      = (Except.error (Err.clientError "AccessDenied"),
         ⟨{ prov0 with removeStreamFault := some "AccessDenied" },
          [Event.call (Call.removeStream "fn1")]⟩) :=
  ⟨claim_C4_removal_tolerance.1 String "arn1" descFn1 prov0 (by decide) (by decide),
   claim_C4_removal_tolerance.2.2.2 String "arn1" descFn1
     { prov0 with removeStreamFault := some "AccessDenied" } "AccessDenied"
     rfl (by decide)⟩

/-- C10: for every function removal where the delete call itself raises the
not-found provider error (the function is absent, or the provider answers
`ResourceNotFoundException`), the remover stops after that one call: the
provider state is untouched and the trace holds only the failed delete and
the warning — no trigger-binding removal, no log-group listing, and no
log-group deletion, so leftover log groups are never cleaned up. -/
theorem claim_C10_cleanup_skip_on_gone (ρ : Type) (arn : String)
    (config : DescriptionObj ρ) (p : ProviderState)
    (h : p.deleteLambdaFault = some "ResourceNotFoundException"
         ∨ (p.deleteLambdaFault = none
            ∧ p.functions.find? (fun f => f.name == config.resource_name) = none)) :
    runOn (_remove_lambda arn config) p
      = (Except.ok (),
         ⟨p, [Event.call (Call.deleteLambda config.resource_name),
              Event.logWarn "Lambda %s is not found"]⟩)
    ∧ (∀ e ∈ (runOn (_remove_lambda arn config) p).2.trace,
         e ≠ Event.call (Call.removeTrigger config.resource_name)
         ∧ e ≠ Event.call Call.getLogGroupNames
         ∧ ∀ g : String, e ≠ Event.call (Call.deleteLogGroupName g)) := by
  have hdel : delete_lambda config.resource_name (⟨p, []⟩ : St)
      = (Except.error (Err.clientError "ResourceNotFoundException"),
         ⟨p, [Event.call (Call.deleteLambda config.resource_name)]⟩) := by
    rcases h with hf | ⟨hf, hfn⟩
    · unfold delete_lambda
      rw [hf]
      rfl
    · unfold delete_lambda
      rw [hf, hfn]
      rfl
  have hrun : runOn (_remove_lambda arn config) p
      = (Except.ok (),
         ⟨p, [Event.call (Call.deleteLambda config.resource_name),
              Event.logWarn "Lambda %s is not found"]⟩) := by
    show _remove_lambda arn config ⟨p, []⟩ = _
    unfold _remove_lambda
    rw [tryClientError_err (bind_error hdel)]
    simp [logWarn, emit]
  refine ⟨hrun, ?_⟩
  rw [hrun]
  intro e he
  simp only [List.mem_cons, List.not_mem_nil, or_false] at he
  rcases he with rfl | rfl <;> refine ⟨by simp, by simp, fun g => by simp⟩

/-- Witness for C10 at a concrete input: removing `fn1` when no such function
exists issues no cleanup calls. -/
theorem claim_C10_cleanup_skip_on_gone_witness :
    runOn (_remove_lambda "arn1" descFn1)
        { prov0 with logGroups := ["/aws/lambda/fn1"] }
      = (Except.ok (),
         ⟨{ prov0 with logGroups := ["/aws/lambda/fn1"] },
          [Event.call (Call.deleteLambda "fn1"),
           Event.logWarn "Lambda %s is not found"]⟩)
    ∧ (∀ e ∈ (runOn (_remove_lambda "arn1" descFn1)
                { prov0 with logGroups := ["/aws/lambda/fn1"] }).2.trace,
         e ≠ Event.call (Call.removeTrigger "fn1")
         ∧ e ≠ Event.call Call.getLogGroupNames
         ∧ ∀ g : String, e ≠ Event.call (Call.deleteLogGroupName g)) :=
  claim_C10_cleanup_skip_on_gone String "arn1" descFn1
    { prov0 with logGroups := ["/aws/lambda/fn1"] }
    (Or.inr ⟨rfl, by decide⟩)

theorem bind_apply {α β : Type} (x : M α) (f : α → M β) (s : St) :
    (x >>= f) s
      = match x s with
        | (Except.ok a, s1) => f a s1
        | (Except.error e, s1) => (Except.error e, s1) := rfl

theorem deleteMatchingLogGroups_run (n : String) (gs : List String) (s : St) :
    deleteMatchingLogGroups n gs s
      = (Except.ok (),
         ⟨{ s.prov with logGroups := s.prov.logGroups.filter (fun x => !(gs.contains x && (n == lastSegment x))) },
          s.trace ++ (gs.filter (fun g => n == lastSegment g)).map (fun g => Event.call (Call.deleteLogGroupName g))⟩) := by
  induction gs generalizing s with
  | nil =>
    simp [deleteMatchingLogGroups, M.pure]
  | cons g gs ih =>
    unfold deleteMatchingLogGroups
    by_cases hm : (n == lastSegment g) = true
    · have hstep : delete_log_group_name g s
          = (Except.ok (),
             ⟨{ s.prov with logGroups := s.prov.logGroups.filter (fun x => x != g) },
              s.trace ++ [Event.call (Call.deleteLogGroupName g)]⟩) := rfl
      rw [if_pos hm, bind_ok hstep]
      refine (ih _).trans ?_
      have hlog : (s.prov.logGroups.filter (fun x => x != g)).filter (fun x => !(gs.contains x && (n == lastSegment x)))
          = s.prov.logGroups.filter (fun x => !((g :: gs).contains x && (n == lastSegment x))) := by
        rw [List.filter_filter]
        refine List.filter_congr ?_
        intro x _
        by_cases hx : x = g
        · subst hx
          simp [hm, List.contains_cons]
        · have hxg : (x == g) = false := beq_false_of_ne hx
          simp [List.contains_cons, hxg, hx, bne]
      have htr : List.filter (fun g => n == lastSegment g) (g :: gs)
          = g :: List.filter (fun g => n == lastSegment g) gs :=
        List.filter_cons_of_pos hm
      simp only [htr, List.map_cons, hlog]
      simp
    · rw [if_neg hm, bind_ok (show M.pure () s = (Except.ok (), s) from rfl)]
      refine (ih _).trans ?_
      have hlog : s.prov.logGroups.filter (fun x => !(gs.contains x && (n == lastSegment x)))
          = s.prov.logGroups.filter (fun x => !((g :: gs).contains x && (n == lastSegment x))) := by
        refine List.filter_congr ?_
        intro x _
        by_cases hx : x = g
        · subst hx
          simp [hm, List.contains_cons]
        · have hxg : (x == g) = false := beq_false_of_ne hx
          simp [List.contains_cons, hxg, hx, bne]
      have htr : List.filter (fun g => n == lastSegment g) (g :: gs)
          = List.filter (fun g => n == lastSegment g) gs :=
        List.filter_cons_of_neg hm
      simp only [htr, hlog]


theorem claim_C7_log_group_cleanup (ρ : Type) (arn : String)
    (config : DescriptionObj ρ) (p : ProviderState)
    (hf : p.deleteLambdaFault = none)
    (hfn : (p.functions.find? (fun f => f.name == config.resource_name)).isSome = true) :
    runOn (_remove_lambda arn config) p
      = (Except.ok (),
         ⟨{ p with functions := p.functions.filter (fun f => f.name != config.resource_name), logGroups := p.logGroups.filter (fun g => !(config.resource_name == lastSegment g)) },
          [Event.call (Call.deleteLambda config.resource_name),
           Event.call (Call.removeTrigger config.resource_name),
           Event.call Call.getLogGroupNames]
            ++ (p.logGroups.filter (fun g => config.resource_name == lastSegment g)).map (fun g => Event.call (Call.deleteLogGroupName g))
            ++ [Event.logInfo "Lambda %s was removed."]⟩) := by
  have h1 : delete_lambda config.resource_name (⟨p, []⟩ : St)
      = (Except.ok (),
         ⟨{ p with functions := p.functions.filter (fun f => f.name != config.resource_name) },
          [Event.call (Call.deleteLambda config.resource_name)]⟩) := by
    unfold delete_lambda
    simp only [hf, hfn, if_true, List.nil_append]
  have hcontains : ∀ x ∈ p.logGroups, p.logGroups.contains x = true := by
    intro x hx
    exact List.elem_eq_true_of_mem hx
  have hfix : p.logGroups.filter (fun x => !(p.logGroups.contains x && (config.resource_name == lastSegment x)))
      = p.logGroups.filter (fun x => !(config.resource_name == lastSegment x)) := by
    refine List.filter_congr ?_
    intro x hx
    rw [hcontains x hx]
    simp
  show _remove_lambda arn config ⟨p, []⟩ = _
  unfold _remove_lambda tryClientError
  simp only [bind_apply, h1, remove_trigger, mutOp, get_log_group_names, readOp,
    deleteMatchingLogGroups_run, logInfo, emit, hfix, List.append_assoc,
    List.nil_append, List.cons_append]


/-- Sample provider state for C7: `fn1` exists; one log group whose name ends
in `fn1` but whose final slash-segment `afn1` differs from it. -/
def provC7 : ProviderState :=
  { s3Files := [], functions := [⟨"fn1", "arn:fn1", "Configuration"⟩],
    roles := [], streams := [], queues := [], buckets := [],
    tablesWithStream := [], logGroups := ["/aws/lambda/afn1"],
    unresolvedConcurrency := 0, deleteLambdaFault := none,
    removeStreamFault := none }

/-- Sample provider state for the C7 witness: `fn1` exists, with one log
group whose final slash-segment is `fn1` and one whose is not. -/
def provC7w : ProviderState :=
  { s3Files := [], functions := [⟨"fn1", "arn:fn1", "Configuration"⟩],
    roles := [], streams := [], queues := [], buckets := [],
    tablesWithStream := [],
    logGroups := ["/aws/lambda/fn1", "/aws/lambda/afn1"],
    unresolvedConcurrency := 0, deleteLambdaFault := none,
    removeStreamFault := none }

/-- C7 counterexample: the claim says every log group whose name ends in the
function name is deleted.  Concretely, `/aws/lambda/afn1` ends in `fn1`, the
removal of `fn1` succeeds, yet that log group survives and no
delete-log-group call is issued: the code compares the final slash-segment
for equality, not a suffix. -/
theorem claim_C7_counterexample :
    ("fn1".data.isSuffixOf "/aws/lambda/afn1".data) = true
    ∧ runOn (_remove_lambda "arn1" descFn1) provC7
        = (Except.ok (),
           ⟨{ s3Files := [], functions := [], roles := [], streams := [],
              queues := [], buckets := [], tablesWithStream := [],
              logGroups := ["/aws/lambda/afn1"], unresolvedConcurrency := 0,
              deleteLambdaFault := none, removeStreamFault := none },
            [Event.call (Call.deleteLambda "fn1"),
             Event.call (Call.removeTrigger "fn1"),
             Event.call Call.getLogGroupNames,
             Event.logInfo "Lambda %s was removed."]⟩) := by
  constructor
  · decide
  · decide

/-- Witness for the amended C7 at a concrete input: the group whose final
slash-segment is `fn1` is deleted, the other survives, and the trigger
removal precedes the log-group deletion in the trace. -/
theorem claim_C7_log_group_cleanup_witness :
    runOn (_remove_lambda "arn1" descFn1) provC7w
      = (Except.ok (),
         ⟨{ s3Files := [], functions := [], roles := [], streams := [],
            queues := [], buckets := [], tablesWithStream := [],
            logGroups := ["/aws/lambda/afn1"], unresolvedConcurrency := 0,
            deleteLambdaFault := none, removeStreamFault := none },
          [Event.call (Call.deleteLambda "fn1"),
           Event.call (Call.removeTrigger "fn1"),
           Event.call Call.getLogGroupNames,
           Event.call (Call.deleteLogGroupName "/aws/lambda/fn1"),
           Event.logInfo "Lambda %s was removed."]⟩) :=
  (claim_C7_log_group_cleanup String "arn1" descFn1 provC7w rfl
     (by decide)).trans (by decide)

/-- A sample stream meta: shard count 2. -/
def metaStream : Meta := [(Key.shard_count, MValue.n 2)]

/-- Sample provider state for C3: stream `st1` exists in `DELETING` status. -/
def provDel : ProviderState :=
  { s3Files := [], functions := [], roles := [],
    streams := [⟨"st1", "arn:st1", "DELETING"⟩], queues := [], buckets := [],
    tablesWithStream := [], logGroups := [], unresolvedConcurrency := 0,
    deleteLambdaFault := none, removeStreamFault := none }

theorem claim_C3_stream_state_handling :
    (∀ (cfg : Config) (name : String) (meta : Meta) (p : ProviderState)
       (st : StreamInfo),
       p.streams.find? (fun x => x.name == name) = some st →
       (st.status == "DELETING") = false →
       runOn (_create_kinesis_stream_from_meta cfg name meta) p
         = (Except.ok [(st.arn, build_description_obj st name meta)],
            ⟨p, [Event.call (Call.getStream name),
                 Event.logWarn "%s kinesis stream exists"]⟩))
    ∧ (∀ (cfg : Config) (name : String) (meta : Meta) (p : ProviderState)
         (st : StreamInfo) (sh : MValue),
       p.streams.find? (fun x => x.name == name) = some st →
       (st.status == "DELETING") = true →
       dictGet meta Key.shard_count = some sh →
       runOn (_create_kinesis_stream_from_meta cfg name meta) p
         = (Except.ok [(streamArnOf cfg name,
              build_description_obj (⟨name, streamArnOf cfg name, "CREATING"⟩ : StreamInfo) name meta)],
            ⟨{ p with streams := ⟨name, streamArnOf cfg name, "CREATING"⟩ :: p.streams },
             [Event.call (Call.getStream name),
              Event.logDebug "Waiting for deletion kinesis stream %s...",
              Event.call (Call.sleep 120),
              Event.call (Call.createStream name sh),
              Event.logInfo "Created kinesis stream %s.",
              Event.call (Call.getStream name)]⟩)) := by
  constructor
  · intro cfg name meta p st hfind hstatus
    show _create_kinesis_stream_from_meta cfg name meta ⟨p, []⟩ = _
    unfold _create_kinesis_stream_from_meta get_stream
    simp only [bind_apply, readOp, hfind, hstatus, Bool.false_eq_true, if_false,
      logWarn, emit, M.pure, List.nil_append, List.cons_append, List.append_assoc]
  · intro cfg name meta p st sh hfind hstatus hsh
    show _create_kinesis_stream_from_meta cfg name meta ⟨p, []⟩ = _
    unfold _create_kinesis_stream_from_meta kinesisCreateAndDescribe get_stream
      getItem create_stream
    simp only [bind_apply, readOp, mutOp, hfind, hstatus, if_true, hsh,
      logDebug, logInfo, emit, sleepM, M.pure, List.find?, beq_self_eq_true,
      List.nil_append, List.cons_append, List.append_assoc]

theorem claim_C3_counterexample :
    runOn (_create_kinesis_stream_from_meta cfg0 "st1" metaStream) provDel
      = (Except.ok [("arn:aws:kinesis:r1:a1:stream/st1",
           build_description_obj
             (⟨"st1", "arn:aws:kinesis:r1:a1:stream/st1", "CREATING"⟩ : StreamInfo)
             "st1" metaStream)],
         ⟨{ s3Files := [], functions := [], roles := [],
            streams := [⟨"st1", "arn:aws:kinesis:r1:a1:stream/st1", "CREATING"⟩,
                        ⟨"st1", "arn:st1", "DELETING"⟩],
            queues := [], buckets := [], tablesWithStream := [], logGroups := [],
            unresolvedConcurrency := 0, deleteLambdaFault := none,
            removeStreamFault := none },
          [Event.call (Call.getStream "st1"),
           Event.logDebug "Waiting for deletion kinesis stream %s...",
           Event.call (Call.sleep 120),
           Event.call (Call.createStream "st1" (MValue.n 2)),
           Event.logInfo "Created kinesis stream %s.",
           Event.call (Call.getStream "st1")]⟩)
    ∧ ((runOn (_create_kinesis_stream_from_meta cfg0 "st1" metaStream) provDel).2.trace.take 4).count
        (Event.call (Call.getStream "st1")) = 1 := by
  constructor
  · decide
  · decide


/-- Sample provider state for the C3/C1 witnesses: stream `st1` is `ACTIVE`. -/
def provAct : ProviderState :=
  { s3Files := [], functions := [], roles := [],
    streams := [⟨"st1", "arn:st1", "ACTIVE"⟩], queues := [], buckets := [],
    tablesWithStream := [], logGroups := [], unresolvedConcurrency := 0,
    deleteLambdaFault := none, removeStreamFault := none }

/-- Witness for the amended C3 at concrete inputs: an `ACTIVE` stream
short-circuits without a create; a `DELETING` stream gets the single fixed
wait and then the immediate create. -/
theorem claim_C3_stream_state_handling_witness :
    runOn (_create_kinesis_stream_from_meta cfg0 "st1" metaStream) provAct
      = (Except.ok [("arn:st1",
           build_description_obj (⟨"st1", "arn:st1", "ACTIVE"⟩ : StreamInfo)
             "st1" metaStream)],
         ⟨provAct, [Event.call (Call.getStream "st1"),
                    Event.logWarn "%s kinesis stream exists"]⟩)
    ∧ runOn (_create_kinesis_stream_from_meta cfg0 "st1" metaStream) provDel
        = (Except.ok [(streamArnOf cfg0 "st1",
             build_description_obj
               (⟨"st1", streamArnOf cfg0 "st1", "CREATING"⟩ : StreamInfo)
               "st1" metaStream)],
           ⟨{ provDel with streams := ⟨"st1", streamArnOf cfg0 "st1", "CREATING"⟩ :: provDel.streams },
            [Event.call (Call.getStream "st1"),
             Event.logDebug "Waiting for deletion kinesis stream %s...",
             Event.call (Call.sleep 120),
             Event.call (Call.createStream "st1" (MValue.n 2)),
             Event.logInfo "Created kinesis stream %s.",
             Event.call (Call.getStream "st1")]⟩) :=
  ⟨claim_C3_stream_state_handling.1 cfg0 "st1" metaStream provAct
     ⟨"st1", "arn:st1", "ACTIVE"⟩ (by decide) (by decide),
   claim_C3_stream_state_handling.2 cfg0 "st1" metaStream provDel
     ⟨"st1", "arn:st1", "DELETING"⟩ (MValue.n 2) (by decide) (by decide)
     (by decide)⟩

/-- A descriptor meta with a dead-letter queue configured with an
upper-case type tag, no triggers and no concurrency override. -/
def metaDl : Meta :=
  [(Key.iam_role_name, MValue.s "role1"), (Key.runtime, MValue.s "Python"),
   (Key.memory, MValue.n 128), (Key.timeout, MValue.n 30),
   (Key.func_name, MValue.s "handler"), (Key.S3_PATH_NAME, MValue.s "pkg.zip"),
   (Key.dl_resource_type, MValue.s "SQS"), (Key.dl_resource_name, MValue.s "dlq")]

/-- C8 (amended): the dead-letter-target passed to the create call is
`'arn:aws:{type.lower()}:{region}:{account}:{name}'` — with the configured
type lowercased — exactly when both a (truthy, string) dead-letter type and a
truthy dead-letter name are configured; it is `None` when the type key is
absent, or when the type is a string and the name key is absent.  The last
conjunct shows the computed value is the one passed to the provider's create
call. -/
theorem claim_C8_dead_letter_target :
    (∀ (cfg : Config) (meta : Meta) (ty : String) (w : MValue),
       dictGet meta Key.dl_resource_type = some (MValue.s ty) →
       (MValue.s ty).truthy = true → MValue.truthy w = true →
       dictGet meta Key.dl_resource_name = some w →
       dl_target_arn_of cfg meta
         = Except.ok (some ("arn:aws:" ++ pyLower ty ++ ":" ++ cfg.region ++ ":"
             ++ cfg.account_id ++ ":" ++ pyfmt w)))
    ∧ (∀ (cfg : Config) (meta : Meta),
       dictGet meta Key.dl_resource_type = none →
       dl_target_arn_of cfg meta = Except.ok none)
    ∧ (∀ (cfg : Config) (meta : Meta) (ty : String),
       dictGet meta Key.dl_resource_type = some (MValue.s ty) →
       dictGet meta Key.dl_resource_name = none →
       dl_target_arn_of cfg meta = Except.ok none)
    ∧ (∀ (cfg : Config) (p : ProviderState) (ra : String),
       p.s3Files.contains (cfg.deploy_target_bucket, MValue.s "pkg.zip") = true →
       p.functions.find? (fun f => f.name == "fn1") = none →
       (p.roles.find? (fun r => r.1 == "role1")).map (fun r => r.2) = some ra →
       runOn (_create_lambda_from_meta cfg "fn1" metaDl) p
         = (Except.ok [(lambdaArnOf cfg "fn1",
              build_description_obj "Configuration" "fn1" metaDl)],
            ⟨{ p with functions := ⟨"fn1", lambdaArnOf cfg "fn1", "Configuration"⟩ :: p.functions },
             [Event.call (Call.isFileExists cfg.deploy_target_bucket (MValue.s "pkg.zip")),
              Event.call (Call.getFunction "fn1"),
              Event.call (Call.checkIfRoleExists "role1"),
              Event.call (Call.createLambda "fn1" (MValue.s "handler") ra
                "python" (MValue.n 128) (MValue.n 30) cfg.deploy_target_bucket
                (MValue.s "pkg.zip") none none none
                (some ("arn:aws:sqs:" ++ cfg.region ++ ":" ++ cfg.account_id ++ ":" ++ "dlq"))
                none),
              Event.call (Call.sleep 10),
              Event.call (Call.getFunction "fn1"),
              Event.logInfo "Created lambda %s."]⟩)) := by
  refine ⟨?_, ?_, ?_, ?_⟩
  · intro cfg meta ty w hty htruthy hwtruthy hw
    unfold dl_target_arn_of
    rw [hty]
    simp only [htruthy, if_true, hw, hwtruthy]
  · intro cfg meta hty
    unfold dl_target_arn_of
    rw [hty]
  · intro cfg meta ty hty hw
    unfold dl_target_arn_of
    rw [hty]
    by_cases htruthy : (MValue.s ty).truthy = true
    · simp only [htruthy, if_true, hw]
    · simp only [Bool.not_eq_true] at htruthy
      simp only [htruthy, Bool.false_eq_true, if_false]
  · intro cfg p ra hfile hfn hrole
    show _create_lambda_from_meta cfg "fn1" metaDl ⟨p, []⟩ = _
    have h1 : validate_params "fn1" metaDl req_params = M.pure () := rfl
    have h2 : getItem metaDl Key.S3_PATH_NAME = M.pure (MValue.s "pkg.zip") := rfl
    have h3 : getItemStrM metaDl Key.iam_role_name = M.pure "role1" := rfl
    have h4 : dl_target_arn_of cfg metaDl
        = Except.ok (some ("arn:aws:sqs:" ++ cfg.region ++ ":"
            ++ cfg.account_id ++ ":" ++ "dlq")) := rfl
    have h5 : getItem metaDl Key.func_name = M.pure (MValue.s "handler") := rfl
    have h6 : getItemStrM metaDl Key.runtime = M.pure "Python" := rfl
    have h7 : getItem metaDl Key.memory = M.pure (MValue.n 128) := rfl
    have h8 : getItem metaDl Key.timeout = M.pure (MValue.n 30) := rfl
    have h9 : dictGet metaDl Key.env_variables = none := rfl
    have h10 : dictGet metaDl Key.subnet_ids = none := rfl
    have h11 : dictGet metaDl Key.security_group_ids = none := rfl
    have h12 : dictGet metaDl Key.tracing_mode = none := rfl
    have h13 : dictGet metaDl Key.concurrent_executions = none := rfl
    have h14 : dictGet metaDl Key.event_sources = none := rfl
    have h15 : pyLower "Python" = "python" := rfl
    unfold _create_lambda_from_meta concurrency_section event_sources_section
      is_file_exists get_function check_if_role_exists create_lambda
      describe_lambda
    simp only [bind_apply, readOp, mutOp, emit, logInfo, logWarn, logDebug,
      sleepM, M.pure, liftE, throwM, h1, h2, h3, h4, h5, h6, h7, h8, h9, h10,
      h11, h12, h13, h14, h15, hfile, hfn, hrole, Bool.not_true, Bool.not_false,
      if_true, if_false, Bool.false_eq_true, Bool.true_eq_false, List.find?,
      beq_self_eq_true, build_description_obj,
      List.nil_append, List.cons_append, List.append_assoc]


/-- C8 counterexample: with dead-letter type configured as `"SQS"` and name
`"dlq"`, the code passes `arn:aws:sqs:r1:a1:dlq` — not the claim\'s
interpolation `arn:aws:{type}:{region}:{account}:{name}` with the configured
type, which would be `arn:aws:SQS:r1:a1:dlq`: the type is lowercased first. -/
theorem claim_C8_counterexample :
    dl_target_arn_of cfg0 metaDl = Except.ok (some "arn:aws:sqs:r1:a1:dlq")
    ∧ "arn:aws:sqs:r1:a1:dlq" ≠ "arn:aws:SQS:r1:a1:dlq"
    ∧ dl_target_arn_of cfg0 metaDl
        ≠ Except.ok (some ("arn:aws:" ++ "SQS" ++ ":" ++ cfg0.region ++ ":"
            ++ cfg0.account_id ++ ":" ++ "dlq")) := by
  refine ⟨by decide, by decide, by decide⟩

/-- Witness for C8 at a concrete input: the full reconciliation of `fn1` with
the `SQS`/`dlq` dead-letter configuration issues one create call carrying
`arn:aws:sqs:r1:a1:dlq`. -/
theorem claim_C8_dead_letter_target_witness :
    runOn (_create_lambda_from_meta cfg0 "fn1" metaDl) prov0
      = (Except.ok [("arn:aws:lambda:r1:a1:function:fn1",
           { response := "Configuration", resource_name := "fn1",
             resource_meta := metaDl })],
         ⟨{ s3Files := [("b1", MValue.s "pkg.zip")],
            functions := [⟨"fn1", "arn:aws:lambda:r1:a1:function:fn1", "Configuration"⟩],
            roles := [("role1", "arn:role1")], streams := [], queues := ["q1"],
            buckets := [], tablesWithStream := [], logGroups := [],
            unresolvedConcurrency := 0, deleteLambdaFault := none,
            removeStreamFault := none },
          [Event.call (Call.isFileExists "b1" (MValue.s "pkg.zip")),
           Event.call (Call.getFunction "fn1"),
           Event.call (Call.checkIfRoleExists "role1"),
           Event.call (Call.createLambda "fn1" (MValue.s "handler") "arn:role1"
             "python" (MValue.n 128) (MValue.n 30) "b1" (MValue.s "pkg.zip")
             none none none (some "arn:aws:sqs:r1:a1:dlq") none),
           Event.call (Call.sleep 10),
           Event.call (Call.getFunction "fn1"),
           Event.logInfo "Created lambda %s."]⟩) :=
  (claim_C8_dead_letter_target.2.2.2 cfg0 prov0 "arn:role1" (by decide)
    (by decide) (by decide)).trans (by decide)

/-- Run lemma for the sqs binder when the queue is absent: it logs and
returns, issuing no add-event-source call. -/
theorem sqs_trigger_skip_run (cfg : Config) (lname larn role : String)
    (t : Trigger) (q : String) (b : TValue) (s : St)
    (h1 : dictGet t Key.target_queue = some (TValue.s q))
    (h2 : dictGet t Key.batch_size = some b)
    (hq : s.prov.queues.contains q = false) :
    _create_sqs_trigger_from_meta cfg lname larn role t s
      = (Except.ok (),
         ⟨s.prov, s.trace ++ [Event.call (Call.getQueueUrl q cfg.account_id),
                              Event.logDebug "Queue %s does not exist"]⟩) := by
  have hval : List.filter (fun k => (dictGet t k).isNone)
      [Key.target_queue, Key.batch_size] = [] := by
    simp [List.filter, h1, h2]
  have hvalM : validate_params lname t [Key.target_queue, Key.batch_size]
      = M.pure () := by
    unfold validate_params
    rw [hval]
    rfl
  have hgetq : getItemStrT t Key.target_queue = M.pure q := by
    unfold getItemStrT
    rw [h1]
  unfold _create_sqs_trigger_from_meta get_queue_url
  simp only [bind_apply, readOp, emit, logDebug, logInfo, M.pure, throwM, hvalM,
    hgetq, hq, if_true, if_false, Bool.false_eq_true, Option.isNone_none,
    Option.isNone_some, List.nil_append, List.cons_append, List.append_assoc]

/-- Run lemma for the sqs binder when the queue exists: exactly one
add-event-source call, carrying the spec\'s batch size. -/
theorem sqs_trigger_wire_run (cfg : Config) (lname larn role : String)
    (t : Trigger) (q : String) (b : TValue) (s : St)
    (h1 : dictGet t Key.target_queue = some (TValue.s q))
    (h2 : dictGet t Key.batch_size = some b)
    (hq : s.prov.queues.contains q = true) :
    _create_sqs_trigger_from_meta cfg lname larn role t s
      = (Except.ok (),
         ⟨s.prov, s.trace ++ [Event.call (Call.getQueueUrl q cfg.account_id),
            Event.call (Call.addEventSource lname
              ("arn:aws:sqs:" ++ cfg.region ++ ":" ++ cfg.account_id ++ ":" ++ q) b none),
            Event.logInfo "Lambda %s subscribed to SQS queue %s"]⟩) := by
  have hval : List.filter (fun k => (dictGet t k).isNone)
      [Key.target_queue, Key.batch_size] = [] := by
    simp [List.filter, h1, h2]
  have hvalM : validate_params lname t [Key.target_queue, Key.batch_size]
      = M.pure () := by
    unfold validate_params
    rw [hval]
    rfl
  have hgetq : getItemStrT t Key.target_queue = M.pure q := by
    unfold getItemStrT
    rw [h1]
  have hbatch : getItem t Key.batch_size = M.pure b := by
    unfold getItem
    rw [h2]
  unfold _create_sqs_trigger_from_meta get_queue_url add_event_source
  simp only [bind_apply, readOp, mutOp, emit, logDebug, logInfo, M.pure, throwM,
    hvalM, hgetq, hbatch, hq, if_true, if_false, Bool.false_eq_true,
    Option.isNone_none, Option.isNone_some,
    List.nil_append, List.cons_append, List.append_assoc]

/-- C6: for every queue trigger spec with `target_queue` and `batch_size`
present, when the provider reports no queue address the binder logs and
returns without raising, issuing zero add-event-source calls; when the queue
exists it issues exactly one add-event-source call carrying the spec\'s batch
size.  The last conjunct runs the §8 scenario descriptor end to end with the
queue absent: the function is still created (one create call, successful
result) and no add-event-source call appears in the trace. -/
theorem claim_C6_queue_trigger_best_effort :
    (∀ (cfg : Config) (lname larn role : String) (t : Trigger) (q : String)
       (b : TValue) (s : St),
       dictGet t Key.target_queue = some (TValue.s q) →
       dictGet t Key.batch_size = some b →
       s.prov.queues.contains q = false →
       _create_sqs_trigger_from_meta cfg lname larn role t s
         = (Except.ok (),
            ⟨s.prov, s.trace ++ [Event.call (Call.getQueueUrl q cfg.account_id),
                                 Event.logDebug "Queue %s does not exist"]⟩))
    ∧ (∀ (cfg : Config) (lname larn role : String) (t : Trigger) (q : String)
         (b : TValue) (s : St),
       dictGet t Key.target_queue = some (TValue.s q) →
       dictGet t Key.batch_size = some b →
       s.prov.queues.contains q = true →
       _create_sqs_trigger_from_meta cfg lname larn role t s
         = (Except.ok (),
            ⟨s.prov, s.trace ++ [Event.call (Call.getQueueUrl q cfg.account_id),
               Event.call (Call.addEventSource lname
                 ("arn:aws:sqs:" ++ cfg.region ++ ":" ++ cfg.account_id ++ ":" ++ q) b none),
               Event.logInfo "Lambda %s subscribed to SQS queue %s"]⟩))
    ∧ (∀ (cfg : Config) (p : ProviderState) (ra : String),
       p.s3Files.contains (cfg.deploy_target_bucket, MValue.s "pkg.zip") = true →
       p.functions.find? (fun f => f.name == "fn1") = none →
       (p.roles.find? (fun r => r.1 == "role1")).map (fun r => r.2) = some ra →
       p.queues.contains "q1" = false →
       runOn (_create_lambda_from_meta cfg "fn1" metaFn1) p
         = (Except.ok [(lambdaArnOf cfg "fn1",
              build_description_obj "Configuration" "fn1" metaFn1)],
            ⟨{ p with functions := ⟨"fn1", lambdaArnOf cfg "fn1", "Configuration"⟩ :: p.functions },
             [Event.call (Call.isFileExists cfg.deploy_target_bucket (MValue.s "pkg.zip")),
              Event.call (Call.getFunction "fn1"),
              Event.call (Call.checkIfRoleExists "role1"),
              Event.call (Call.createLambda "fn1" (MValue.s "handler") ra
                "python" (MValue.n 128) (MValue.n 30) cfg.deploy_target_bucket
                (MValue.s "pkg.zip") none none none none none),
              Event.call (Call.sleep 10),
              Event.call (Call.getFunction "fn1"),
              Event.call (Call.getQueueUrl "q1" cfg.account_id),
              Event.logDebug "Queue %s does not exist",
              Event.logInfo "Created lambda %s."]⟩)) := by
  refine ⟨sqs_trigger_skip_run, sqs_trigger_wire_run, ?_⟩
  intro cfg p ra hfile hfn hrole hq
  show _create_lambda_from_meta cfg "fn1" metaFn1 ⟨p, []⟩ = _
  have h1 : validate_params "fn1" metaFn1 req_params = M.pure () := rfl
  have h2 : getItem metaFn1 Key.S3_PATH_NAME = M.pure (MValue.s "pkg.zip") := rfl
  have h3 : getItemStrM metaFn1 Key.iam_role_name = M.pure "role1" := rfl
  have h4 : dl_target_arn_of cfg metaFn1 = Except.ok none := rfl
  have h5 : getItem metaFn1 Key.func_name = M.pure (MValue.s "handler") := rfl
  have h6 : getItemStrM metaFn1 Key.runtime = M.pure "Python" := rfl
  have h7 : getItem metaFn1 Key.memory = M.pure (MValue.n 128) := rfl
  have h8 : getItem metaFn1 Key.timeout = M.pure (MValue.n 30) := rfl
  have h9 : dictGet metaFn1 Key.env_variables = none := rfl
  have h10 : dictGet metaFn1 Key.subnet_ids = none := rfl
  have h11 : dictGet metaFn1 Key.security_group_ids = none := rfl
  have h12 : dictGet metaFn1 Key.tracing_mode = none := rfl
  have h13 : dictGet metaFn1 Key.concurrent_executions = none := rfl
  have h14 : dictGet metaFn1 Key.event_sources
      = some (MValue.triggers [trigSqs]) := rfl
  have h15 : pyLower "Python" = "python" := rfl
  have h16 : (MValue.triggers [trigSqs]).truthy = true := rfl
  have h17 : getItem trigSqs Key.resource_type
      = M.pure (TValue.s "sqs_trigger") := rfl
  have h18 : CREATE_TRIGGER (TValue.s "sqs_trigger")
      = some _create_sqs_trigger_from_meta := rfl
  unfold _create_lambda_from_meta concurrency_section event_sources_section
    is_file_exists get_function check_if_role_exists create_lambda
    describe_lambda runTriggers runTriggers dispatchTrigger
  simp only [bind_apply, readOp, mutOp, emit, logInfo, logWarn, logDebug,
    sleepM, M.pure, liftE, throwM, h1, h2, h3, h4, h5, h6, h7, h8, h9, h10,
    h11, h12, h13, h14, h15, h16, h17, h18, hfile, hfn, hrole,
    Bool.not_true, Bool.not_false, if_true, if_false, Bool.false_eq_true,
    Bool.true_eq_false, List.find?, beq_self_eq_true, build_description_obj,
    List.nil_append, List.cons_append, List.append_assoc]
  rw [sqs_trigger_skip_run cfg "fn1" (lambdaArnOf cfg "fn1") "role1" trigSqs
    "q1" (TValue.n 10) _ rfl rfl (by exact hq)]
  simp only [bind_apply, M.pure, emit, logInfo, List.cons_append,
    List.nil_append, List.append_assoc]


/-- `prov0` with queue `q1` absent. -/
def provNoQ : ProviderState :=
  { s3Files := [("b1", MValue.s "pkg.zip")], functions := [],
    roles := [("role1", "arn:role1")], streams := [], queues := [],
    buckets := [], tablesWithStream := [], logGroups := [],
    unresolvedConcurrency := 0, deleteLambdaFault := none,
    removeStreamFault := none }

/-- Witness for C6 at concrete inputs: the §8 descriptor against a provider
without `q1` still creates the function and skips the wiring; the binder
against a provider with `q1` issues the single add-event-source call with
batch size 10. -/
theorem claim_C6_queue_trigger_best_effort_witness :
    runOn (_create_lambda_from_meta cfg0 "fn1" metaFn1) provNoQ
      = (Except.ok [("arn:aws:lambda:r1:a1:function:fn1",
           { response := "Configuration", resource_name := "fn1",
             resource_meta := metaFn1 })],
         ⟨{ s3Files := [("b1", MValue.s "pkg.zip")],
            functions := [⟨"fn1", "arn:aws:lambda:r1:a1:function:fn1", "Configuration"⟩],
            roles := [("role1", "arn:role1")], streams := [], queues := [],
            buckets := [], tablesWithStream := [], logGroups := [],
            unresolvedConcurrency := 0, deleteLambdaFault := none,
            removeStreamFault := none },
          [Event.call (Call.isFileExists "b1" (MValue.s "pkg.zip")),
           Event.call (Call.getFunction "fn1"),
           Event.call (Call.checkIfRoleExists "role1"),
           Event.call (Call.createLambda "fn1" (MValue.s "handler") "arn:role1"
             "python" (MValue.n 128) (MValue.n 30) "b1" (MValue.s "pkg.zip")
             none none none none none),
           Event.call (Call.sleep 10),
           Event.call (Call.getFunction "fn1"),
           Event.call (Call.getQueueUrl "q1" "a1"),
           Event.logDebug "Queue %s does not exist",
           Event.logInfo "Created lambda %s."]⟩)
    ∧ _create_sqs_trigger_from_meta cfg0 "fn1" "arn1" "role1" trigSqs ⟨prov0, []⟩
        = (Except.ok (),
           ⟨prov0, [Event.call (Call.getQueueUrl "q1" "a1"),
             Event.call (Call.addEventSource "fn1" "arn:aws:sqs:r1:a1:q1"
               (TValue.n 10) none),
             Event.logInfo "Lambda %s subscribed to SQS queue %s"]⟩) :=
  ⟨(claim_C6_queue_trigger_best_effort.2.2 cfg0 provNoQ "arn:role1"
      (by decide) (by decide) (by decide) (by decide)).trans (by decide),
   (claim_C6_queue_trigger_best_effort.2.1 cfg0 "fn1" "arn1" "role1" trigSqs
      "q1" (TValue.n 10) ⟨prov0, []⟩ (by decide) (by decide)
      (by decide)).trans (by decide)⟩

/-! ## Preservation machinery for C1: trigger wiring never touches the
function table or the artifact store. -/

/-- A computation preserves the provider\'s function table and artifact
store (used to show trigger wiring cannot un-create a function or remove the
uploaded artifact). -/
def PreservesFn {α : Type} (x : M α) : Prop :=
  ∀ s : St, ((x s).2.prov.functions = s.prov.functions)
    ∧ ((x s).2.prov.s3Files = s.prov.s3Files)

theorem pres_pure {α : Type} (a : α) : PreservesFn (M.pure a) :=
  fun s => ⟨rfl, rfl⟩

theorem pres_pure' {α : Type} (a : α) : PreservesFn (pure a : M α) :=
  fun s => ⟨rfl, rfl⟩

theorem pres_throw {α : Type} (e : Err) : PreservesFn (throwM e : M α) :=
  fun s => ⟨rfl, rfl⟩

theorem pres_emit (e : Event) : PreservesFn (emit e) :=
  fun s => ⟨rfl, rfl⟩

theorem pres_liftE {α : Type} (x : Except Err α) : PreservesFn (liftE x) := by
  intro s
  unfold liftE
  exact ⟨rfl, rfl⟩

theorem pres_readOp {α : Type} (c : Call) (f : ProviderState → α) :
    PreservesFn (readOp c f) :=
  fun s => ⟨rfl, rfl⟩

theorem pres_mutOp (c : Call) (g : ProviderState → ProviderState)
    (hg : ∀ p, (g p).functions = p.functions ∧ (g p).s3Files = p.s3Files) :
    PreservesFn (mutOp c g) :=
  fun s => ⟨(hg s.prov).1, (hg s.prov).2⟩

theorem pres_bind {α β : Type} {x : M α} {f : α → M β}
    (hx : PreservesFn x) (hf : ∀ a, PreservesFn (f a)) :
    PreservesFn (x >>= f) := by
  intro s
  show ((M.bind x f) s).2.prov.functions = _ ∧ ((M.bind x f) s).2.prov.s3Files = _
  unfold M.bind
  rcases hxs : x s with ⟨r, s1⟩
  have h1 := hx s
  rw [hxs] at h1
  cases r with
  | ok a =>
    have h2 := hf a s1
    exact ⟨h2.1.trans h1.1, h2.2.trans h1.2⟩
  | error e => exact h1

theorem pres_ite {α : Type} {c : Prop} [Decidable c] {x y : M α}
    (hx : PreservesFn x) (hy : PreservesFn y) :
    PreservesFn (if c then x else y) := by
  by_cases hc : c
  · rw [if_pos hc]; exact hx
  · rw [if_neg hc]; exact hy

theorem pres_validate {v : Type} (name : String) (d : List (Key × v))
    (req : List Key) : PreservesFn (validate_params name d req) := by
  unfold validate_params
  exact pres_ite (pres_pure ()) (pres_throw _)

theorem pres_getItem {v : Type} (d : List (Key × v)) (k : Key) :
    PreservesFn (getItem d k) := by
  unfold getItem
  cases dictGet d k with
  | some x => exact pres_pure x
  | none => exact pres_throw _

theorem pres_getItemStrT (t : Trigger) (k : Key) :
    PreservesFn (getItemStrT t k) := by
  unfold getItemStrT
  cases h : dictGet t k with
  | some v =>
    cases v with
    | s x => exact pres_pure x
    | n x => exact pres_throw _
    | sl x => exact pres_throw _
  | none => exact pres_throw _

theorem pres_logDebug (m : String) : PreservesFn (logDebug m) := pres_emit _
theorem pres_logInfo (m : String) : PreservesFn (logInfo m) := pres_emit _
theorem pres_logWarn (m : String) : PreservesFn (logWarn m) := pres_emit _
theorem pres_logError (m : String) : PreservesFn (logError m) := pres_emit _
theorem pres_sleep (n : Nat) : PreservesFn (sleepM n) := pres_emit _

theorem pres_dynamodb (cfg : Config) (n a r : String) (t : Trigger) :
    PreservesFn (_create_dynamodb_trigger_from_meta cfg n a r t) := by
  unfold _create_dynamodb_trigger_from_meta
  refine pres_bind (pres_validate _ _ _) (fun _ => ?_)
  refine pres_bind (pres_getItemStrT _ _) (fun table => ?_)
  refine pres_bind (pres_readOp _ _) (fun enabled => ?_)
  have hrest : PreservesFn (do
      let stream ← get_table_stream_arn cfg table
      let batch ← getItem t Key.batch_size
      add_event_source n stream batch (some (TValue.s "LATEST"))
      logInfo "Lambda %s subscribed to dynamodb table %s") := by
    refine pres_bind (pres_readOp _ _) (fun stream => ?_)
    refine pres_bind (pres_getItem _ _) (fun batch => ?_)
    refine pres_bind (pres_mutOp _ _ (fun p => ⟨rfl, rfl⟩)) (fun _ => ?_)
    exact pres_emit _
  exact pres_ite
    (pres_bind (pres_mutOp _ _ (fun p => ⟨rfl, rfl⟩)) (fun _ => hrest))
    (pres_bind (pres_pure ()) (fun _ => hrest))

theorem pres_sqs (cfg : Config) (n a r : String) (t : Trigger) :
    PreservesFn (_create_sqs_trigger_from_meta cfg n a r t) := by
  unfold _create_sqs_trigger_from_meta
  refine pres_bind (pres_validate _ _ _) (fun _ => ?_)
  refine pres_bind (pres_getItemStrT _ _) (fun q => ?_)
  refine pres_bind (pres_readOp _ _) (fun url => ?_)
  refine pres_ite (pres_emit _) ?_
  refine pres_bind (pres_getItem _ _) (fun batch => ?_)
  refine pres_bind (pres_mutOp _ _ (fun p => ⟨rfl, rfl⟩)) (fun _ => ?_)
  exact pres_emit _

theorem pres_cw (cfg : Config) (n a r : String) (t : Trigger) :
    PreservesFn (_create_cloud_watch_trigger_from_meta cfg n a r t) := by
  unfold _create_cloud_watch_trigger_from_meta
  refine pres_bind (pres_validate _ _ _) (fun _ => ?_)
  refine pres_bind (pres_getItemStrT _ _) (fun rule => ?_)
  refine pres_bind (pres_readOp _ _) (fun arn => ?_)
  refine pres_bind (pres_mutOp _ _ (fun p => ⟨rfl, rfl⟩)) (fun _ => ?_)
  refine pres_bind (pres_mutOp _ _ (fun p => ⟨rfl, rfl⟩)) (fun _ => ?_)
  exact pres_emit _

theorem pres_s3 (cfg : Config) (n a r : String) (t : Trigger) :
    PreservesFn (_create_s3_trigger_from_meta cfg n a r t) := by
  unfold _create_s3_trigger_from_meta
  refine pres_bind (pres_validate _ _ _) (fun _ => ?_)
  refine pres_bind (pres_getItemStrT _ _) (fun bucket => ?_)
  refine pres_bind (pres_readOp _ _) (fun ex => ?_)
  refine pres_ite (pres_emit _) ?_
  refine pres_bind (pres_mutOp _ _ (fun p => ⟨rfl, rfl⟩)) (fun _ => ?_)
  refine pres_bind (pres_getItem _ _) (fun evs => ?_)
  refine pres_bind (pres_mutOp _ _ (fun p => ⟨rfl, rfl⟩)) (fun _ => ?_)
  exact pres_emit _

theorem pres_sns (cfg : Config) (n a r : String) (t : Trigger) :
    PreservesFn (_create_sns_topic_trigger_from_meta cfg n a r t) := by
  unfold _create_sns_topic_trigger_from_meta
  refine pres_bind (pres_validate _ _ _) (fun _ => ?_)
  refine pres_bind (pres_getItem _ _) (fun topic => ?_)
  refine pres_bind (pres_mutOp _ _ (fun p => ⟨rfl, rfl⟩)) (fun _ => ?_)
  refine pres_bind (pres_getItem _ _) (fun _ => ?_)
  exact pres_emit _

theorem pres_kinesis_trigger (cfg : Config) (n a r : String) (t : Trigger) :
    PreservesFn (_create_kinesis_stream_trigger_from_meta cfg n a r t) := by
  unfold _create_kinesis_stream_trigger_from_meta
  refine pres_bind (pres_validate _ _ _) (fun _ => ?_)
  refine pres_bind (pres_getItemStrT _ _) (fun sn => ?_)
  refine pres_bind (pres_readOp _ _) (fun stream => ?_)
  cases stream with
  | none => exact pres_throw _
  | some st =>
    have hrest : PreservesFn (do
        attach_inline_policy r (sn ++ "KinesisTo" ++ n ++ "Lambda") a st.arn
        logDebug "Inline policy %s is attached to role %s"
        logDebug "Waiting for activation policy %s..."
        sleepM 10
        _add_kinesis_event_source n st.arn t
        logInfo "Lambda %s subscribed to kinesis stream %s") := by
      refine pres_bind (pres_mutOp _ _ (fun p => ⟨rfl, rfl⟩)) (fun _ => ?_)
      refine pres_bind (pres_emit _) (fun _ => ?_)
      refine pres_bind (pres_emit _) (fun _ => ?_)
      refine pres_bind (pres_emit _) (fun _ => ?_)
      refine pres_bind ?_ (fun _ => pres_emit _)
      unfold _add_kinesis_event_source
      refine pres_bind (pres_getItem _ _) (fun batch => ?_)
      refine pres_bind (pres_getItem _ _) (fun sp => ?_)
      exact pres_mutOp _ _ (fun p => ⟨rfl, rfl⟩)
    exact pres_ite
      (pres_bind (pres_emit _) (fun _ => pres_bind (pres_emit _) (fun _ => hrest)))
      (pres_bind (pres_pure ()) (fun _ => hrest))

theorem pres_table_entry (tag : TValue)
    (f : Config → String → String → String → Trigger → M Unit)
    (h : CREATE_TRIGGER tag = some f) (cfg : Config) (n a r : String)
    (t : Trigger) : PreservesFn (f cfg n a r t) := by
  unfold CREATE_TRIGGER at h
  split at h
  · cases h; exact pres_dynamodb cfg n a r t
  · cases h; exact pres_cw cfg n a r t
  · cases h; exact pres_s3 cfg n a r t
  · cases h; exact pres_sns cfg n a r t
  · cases h; exact pres_kinesis_trigger cfg n a r t
  · cases h; exact pres_sqs cfg n a r t
  · exact absurd h (by simp)

theorem pres_dispatch (cfg : Config) (n a r : String) (t : Trigger) :
    PreservesFn (dispatchTrigger cfg n a r t) := by
  unfold dispatchTrigger
  refine pres_bind (pres_getItem _ _) (fun tag => ?_)
  cases h : CREATE_TRIGGER tag with
  | none => exact pres_throw _
  | some f => exact pres_table_entry tag f h cfg n a r t

theorem pres_runTriggers (cfg : Config) (n a r : String) (ts : List Trigger) :
    PreservesFn (runTriggers cfg n a r ts) := by
  induction ts with
  | nil => exact pres_pure ()
  | cons t ts ih =>
    unfold runTriggers
    exact pres_bind (pres_dispatch cfg n a r t) (fun _ => ih)


/-! ## Generalized run lemmas for C1 -/

/-- Short-circuit run of the function reconciler: validation passes, the
artifact exists and the provider already has the function. -/
theorem lambda_run_exists (cfg : Config) (name : String) (meta : Meta)
    (key : MValue) (fn : LambdaFn) (s : St)
    (hv : req_params.filter (fun k => (dictGet meta k).isNone) = [])
    (hkey : dictGet meta Key.S3_PATH_NAME = some key)
    (hfile : s.prov.s3Files.contains (cfg.deploy_target_bucket, key) = true)
    (hfn : s.prov.functions.find? (fun f => f.name == name) = some fn) :
    _create_lambda_from_meta cfg name meta s
      = (Except.ok (describe_lambda name meta fn),
         ⟨s.prov, s.trace
            ++ [Event.call (Call.isFileExists cfg.deploy_target_bucket key),
                Event.call (Call.getFunction name),
                Event.logWarn "%s lambda exists."]⟩) := by
  have hvM : validate_params name meta req_params = M.pure () := by
    unfold validate_params
    rw [hv]
    rfl
  have hkM : getItem meta Key.S3_PATH_NAME = M.pure key := by
    unfold getItem
    rw [hkey]
  unfold _create_lambda_from_meta is_file_exists get_function
  simp only [bind_apply, readOp, emit, logWarn, M.pure, hvM, hkM, hfile, hfn,
    Bool.not_true, if_true, if_false, Bool.false_eq_true, describe_lambda,
    List.nil_append, List.cons_append, List.append_assoc]

/-- Short-circuit run of the stream reconciler on an existing, non-deleting
stream. -/
theorem kinesis_run_exists (cfg : Config) (name : String) (meta : Meta)
    (st : StreamInfo) (s : St)
    (hfind : s.prov.streams.find? (fun x => x.name == name) = some st)
    (hstat : (st.status == "DELETING") = false) :
    _create_kinesis_stream_from_meta cfg name meta s
      = (Except.ok [(st.arn, build_description_obj st name meta)],
         ⟨s.prov, s.trace ++ [Event.call (Call.getStream name),
                              Event.logWarn "%s kinesis stream exists"]⟩) := by
  unfold _create_kinesis_stream_from_meta get_stream
  simp only [bind_apply, readOp, emit, logWarn, M.pure, hfind, hstat,
    Bool.false_eq_true, if_false, List.nil_append, List.cons_append,
    List.append_assoc]

/-- Run of the stream reconciler on a DELETING stream with a shard count:
single fixed wait, then an immediate create. -/
theorem kinesis_run_deleting (cfg : Config) (name : String) (meta : Meta)
    (st : StreamInfo) (sh : MValue) (s : St)
    (hfind : s.prov.streams.find? (fun x => x.name == name) = some st)
    (hstat : (st.status == "DELETING") = true)
    (hsh : dictGet meta Key.shard_count = some sh) :
    _create_kinesis_stream_from_meta cfg name meta s
      = (Except.ok [(streamArnOf cfg name,
           build_description_obj (⟨name, streamArnOf cfg name, "CREATING"⟩ : StreamInfo) name meta)],
         ⟨{ s.prov with streams := ⟨name, streamArnOf cfg name, "CREATING"⟩ :: s.prov.streams },
          s.trace ++ [Event.call (Call.getStream name),
            Event.logDebug "Waiting for deletion kinesis stream %s...",
            Event.call (Call.sleep 120),
            Event.call (Call.createStream name sh),
            Event.logInfo "Created kinesis stream %s.",
            Event.call (Call.getStream name)]⟩) := by
  have hshM : getItem meta Key.shard_count = M.pure sh := by
    unfold getItem
    rw [hsh]
  unfold _create_kinesis_stream_from_meta kinesisCreateAndDescribe get_stream
    create_stream
  simp only [bind_apply, readOp, mutOp, emit, logDebug, logInfo, logWarn,
    sleepM, M.pure, hfind, hstat, hshM, if_true, List.find?, beq_self_eq_true,
    List.nil_append, List.cons_append, List.append_assoc]

/-- Run of the stream reconciler when the stream is absent and a shard count
is configured. -/
theorem kinesis_run_absent (cfg : Config) (name : String) (meta : Meta)
    (sh : MValue) (s : St)
    (hfind : s.prov.streams.find? (fun x => x.name == name) = none)
    (hsh : dictGet meta Key.shard_count = some sh) :
    _create_kinesis_stream_from_meta cfg name meta s
      = (Except.ok [(streamArnOf cfg name,
           build_description_obj (⟨name, streamArnOf cfg name, "CREATING"⟩ : StreamInfo) name meta)],
         ⟨{ s.prov with streams := ⟨name, streamArnOf cfg name, "CREATING"⟩ :: s.prov.streams },
          s.trace ++ [Event.call (Call.getStream name),
            Event.call (Call.createStream name sh),
            Event.logInfo "Created kinesis stream %s.",
            Event.call (Call.getStream name)]⟩) := by
  have hshM : getItem meta Key.shard_count = M.pure sh := by
    unfold getItem
    rw [hsh]
  unfold _create_kinesis_stream_from_meta kinesisCreateAndDescribe get_stream
    create_stream
  simp only [bind_apply, readOp, mutOp, emit, logDebug, logInfo, logWarn,
    sleepM, M.pure, hfind, hshM, if_true, List.find?, beq_self_eq_true,
    List.nil_append, List.cons_append, List.append_assoc]

/-- Run of the stream reconciler on a DELETING stream without a shard count:
the create raises a KeyError after the wait. -/
theorem kinesis_run_deleting_nokey (cfg : Config) (name : String) (meta : Meta)
    (st : StreamInfo) (s : St)
    (hfind : s.prov.streams.find? (fun x => x.name == name) = some st)
    (hstat : (st.status == "DELETING") = true)
    (hsh : dictGet meta Key.shard_count = none) :
    _create_kinesis_stream_from_meta cfg name meta s
      = (Except.error (Err.keyError Key.shard_count),
         ⟨s.prov, s.trace ++ [Event.call (Call.getStream name),
            Event.logDebug "Waiting for deletion kinesis stream %s...",
            Event.call (Call.sleep 120)]⟩) := by
  have hshM : getItem meta Key.shard_count
      = throwM (Err.keyError Key.shard_count) := by
    unfold getItem
    rw [hsh]
  unfold _create_kinesis_stream_from_meta kinesisCreateAndDescribe get_stream
  simp only [bind_apply, readOp, emit, logDebug, logInfo, sleepM, M.pure,
    throwM, hfind, hstat, hshM, if_true, List.nil_append, List.cons_append,
    List.append_assoc]

/-- Run of the stream reconciler when the stream is absent and no shard count
is configured: the create raises a KeyError. -/
theorem kinesis_run_absent_nokey (cfg : Config) (name : String) (meta : Meta)
    (s : St)
    (hfind : s.prov.streams.find? (fun x => x.name == name) = none)
    (hsh : dictGet meta Key.shard_count = none) :
    _create_kinesis_stream_from_meta cfg name meta s
      = (Except.error (Err.keyError Key.shard_count),
         ⟨s.prov, s.trace ++ [Event.call (Call.getStream name)]⟩) := by
  have hshM : getItem meta Key.shard_count
      = throwM (Err.keyError Key.shard_count) := by
    unfold getItem
    rw [hsh]
  unfold _create_kinesis_stream_from_meta kinesisCreateAndDescribe get_stream
  simp only [bind_apply, readOp, emit, logDebug, logInfo, sleepM, M.pure,
    throwM, hfind, hshM, List.nil_append, List.cons_append, List.append_assoc]



theorem pres_conc (name : String) (meta : Meta) :
    PreservesFn (concurrency_section name meta) := by
  unfold concurrency_section
  cases dictGet meta Key.concurrent_executions with
  | none => exact pres_pure ()
  | some cv =>
    refine pres_ite ?_ (pres_pure ())
    refine pres_bind (pres_emit _) (fun _ => ?_)
    refine pres_bind (pres_readOp _ _) (fun unresolved => ?_)
    cases cv with
    | s x => exact pres_throw _
    | triggers x => exact pres_throw _
    | n con_exec =>
      refine pres_ite ?_ (pres_emit _)
      exact pres_bind (pres_mutOp _ _ (fun p => ⟨rfl, rfl⟩)) (fun _ => pres_emit _)

theorem pres_ev (cfg : Config) (name lambda_arn role_name : String)
    (meta : Meta) :
    PreservesFn (event_sources_section cfg name lambda_arn role_name meta) := by
  unfold event_sources_section
  cases dictGet meta Key.event_sources with
  | none => exact pres_pure ()
  | some ev =>
    refine pres_ite ?_ (pres_pure ())
    cases ev with
    | s x => exact pres_throw _
    | n x => exact pres_throw _
    | triggers ts => exact pres_runTriggers cfg name lambda_arn role_name ts


theorem idempotent_second_run_kinesis (cfg : Config) (name : String) (meta : Meta)
    (p : ProviderState) (out1 : List (String × DescriptionObj StreamInfo))
    (s1 : St)
    (h : runOn (_create_kinesis_stream_from_meta cfg name meta) p
          = (Except.ok out1, s1)) :
    runOn (_create_kinesis_stream_from_meta cfg name meta) s1.prov
      = (Except.ok out1,
         ⟨s1.prov, [Event.call (Call.getStream name),
                    Event.logWarn "%s kinesis stream exists"]⟩) := by
  unfold runOn at h ⊢
  cases hfind : p.streams.find? (fun x => x.name == name) with
  | some st =>
    by_cases hstat : (st.status == "DELETING") = true
    · cases hsh : dictGet meta Key.shard_count with
      | none =>
        rw [kinesis_run_deleting_nokey cfg name meta st ⟨p, []⟩ hfind hstat hsh] at h
        simp at h
      | some sh =>
        rw [kinesis_run_deleting cfg name meta st sh ⟨p, []⟩ hfind hstat hsh] at h
        injection h with h1 h2
        injection h1 with h1
        subst h1
        subst h2
        rw [kinesis_run_exists cfg name meta
          ⟨name, streamArnOf cfg name, "CREATING"⟩ ⟨_, []⟩
          (by simp [List.find?]) rfl]
        simp
    · rw [kinesis_run_exists cfg name meta st ⟨p, []⟩ hfind
        (by simpa using hstat)] at h
      injection h with h1 h2
      injection h1 with h1
      subst h1
      subst h2
      rw [kinesis_run_exists cfg name meta st ⟨_, []⟩ hfind
        (by simpa using hstat)]
      simp
  | none =>
    cases hsh : dictGet meta Key.shard_count with
    | none =>
      rw [kinesis_run_absent_nokey cfg name meta ⟨p, []⟩ hfind hsh] at h
      simp at h
    | some sh =>
      rw [kinesis_run_absent cfg name meta sh ⟨p, []⟩ hfind hsh] at h
      injection h with h1 h2
      injection h1 with h1
      subst h1
      subst h2
      rw [kinesis_run_exists cfg name meta
        ⟨name, streamArnOf cfg name, "CREATING"⟩ ⟨_, []⟩
        (by simp [List.find?]) rfl]
      simp


/-- Extract the outcome of the post-create tail (concurrency section, event
sources section, final log and return): if it succeeds, the returned value is
the given one and the function table and artifact store are unchanged. -/
theorem seq_extract {α : Type} (x y : M Unit) (m : String) (v : α) (s : St)
    (out1 : α) (s1 : St) (hx : PreservesFn x) (hy : PreservesFn y)
    (h : (x >>= fun _ => y >>= fun _ => logInfo m >>= fun _ => M.pure v) s
          = (Except.ok out1, s1)) :
    out1 = v ∧ s1.prov.functions = s.prov.functions
      ∧ s1.prov.s3Files = s.prov.s3Files := by
  rw [bind_apply] at h
  rcases hxs : x s with ⟨rx, s7⟩
  rw [hxs] at h
  cases rx with
  | error e => simp at h
  | ok a =>
    simp only [] at h
    rw [bind_apply] at h
    rcases hys : y s7 with ⟨ry, s8⟩
    rw [hys] at h
    cases ry with
    | error e => simp at h
    | ok b =>
      simp only [] at h
      have hfin : (logInfo m >>= fun _ => M.pure v) s8
          = (Except.ok v, ⟨s8.prov, s8.trace ++ [Event.logInfo m]⟩) := rfl
      rw [hfin] at h
      injection h with h1 h2
      injection h1 with h1
      have hx7 := hx s
      rw [hxs] at hx7
      have hy8 := hy s7
      rw [hys] at hy8
      subst h2
      exact ⟨h1.symm, hy8.1.trans hx7.1, hy8.2.trans hx7.2⟩

theorem idempotent_second_run_lambda (cfg : Config) (name : String) (meta : Meta)
    (p : ProviderState) (out1 : List (String × DescriptionObj String)) (s1 : St)
    (h : runOn (_create_lambda_from_meta cfg name meta) p
          = (Except.ok out1, s1)) :
    ∃ (key : MValue) (fn : LambdaFn),
      dictGet meta Key.S3_PATH_NAME = some key
      ∧ s1.prov.functions.find? (fun f => f.name == name) = some fn
      ∧ out1 = describe_lambda name meta fn
      ∧ runOn (_create_lambda_from_meta cfg name meta) s1.prov
          = (Except.ok out1,
             ⟨s1.prov,
              [Event.call (Call.isFileExists cfg.deploy_target_bucket key),
               Event.call (Call.getFunction name),
               Event.logWarn "%s lambda exists."]⟩) := by
  unfold runOn at h ⊢
  by_cases hv : req_params.filter (fun k => (dictGet meta k).isNone) = []
  case neg =>
    have hvErr : validate_params name meta req_params
        = throwM (Err.validationError name
            (req_params.filter (fun k => (dictGet meta k).isNone))) := by
      unfold validate_params
      rw [if_neg hv]
    unfold _create_lambda_from_meta at h
    simp only [bind_apply, hvErr, throwM] at h
    simp at h
  case pos =>
  have hvM : validate_params name meta req_params = M.pure () := by
    unfold validate_params
    rw [hv]
    rfl
  cases hkey : dictGet meta Key.S3_PATH_NAME with
  | none =>
    have hkErr : getItem meta Key.S3_PATH_NAME
        = throwM (Err.keyError Key.S3_PATH_NAME) := by
      unfold getItem
      rw [hkey]
    unfold _create_lambda_from_meta at h
    simp only [bind_apply, hvM, M.pure, hkErr, throwM] at h
    simp at h
  | some key =>
  have hkM : getItem meta Key.S3_PATH_NAME = M.pure key := by
    unfold getItem
    rw [hkey]
  cases hfile : p.s3Files.contains (cfg.deploy_target_bucket, key) with
  | false =>
    unfold _create_lambda_from_meta is_file_exists at h
    simp only [bind_apply, hvM, hkM, M.pure, readOp, hfile, Bool.not_false,
      if_true, throwM] at h
    simp at h
  | true =>
  cases hfn0 : p.functions.find? (fun f => f.name == name) with
  | some fn =>
    rw [lambda_run_exists cfg name meta key fn ⟨p, []⟩ hv hkey hfile hfn0] at h
    injection h with h1 h2
    injection h1 with h1
    subst h1
    subst h2
    refine ⟨key, fn, rfl, hfn0, rfl, ?_⟩
    rw [lambda_run_exists cfg name meta key fn ⟨_, []⟩ hv hkey hfile hfn0]
    simp
  | none =>
  cases hrn : dictGet meta Key.iam_role_name with
  | none =>
    have hrErr : getItemStrM meta Key.iam_role_name
        = throwM (Err.keyError Key.iam_role_name) := by
      unfold getItemStrM
      rw [hrn]
    unfold _create_lambda_from_meta is_file_exists get_function at h
    simp only [bind_apply, hvM, hkM, M.pure, readOp, emit, logWarn, hfile, hfn0,
      Bool.not_true, if_false, Bool.false_eq_true, hrErr, throwM] at h
    simp at h
  | some rv =>
  cases rv with
  | n x =>
    have hrErr : getItemStrM meta Key.iam_role_name = throwM Err.typeError := by
      unfold getItemStrM
      rw [hrn]
    unfold _create_lambda_from_meta is_file_exists get_function at h
    simp only [bind_apply, hvM, hkM, M.pure, readOp, emit, logWarn, hfile, hfn0,
      Bool.not_true, if_false, Bool.false_eq_true, hrErr, throwM] at h
    simp at h
  | triggers x =>
    have hrErr : getItemStrM meta Key.iam_role_name = throwM Err.typeError := by
      unfold getItemStrM
      rw [hrn]
    unfold _create_lambda_from_meta is_file_exists get_function at h
    simp only [bind_apply, hvM, hkM, M.pure, readOp, emit, logWarn, hfile, hfn0,
      Bool.not_true, if_false, Bool.false_eq_true, hrErr, throwM] at h
    simp at h
  | s rn =>
  have hroleM : getItemStrM meta Key.iam_role_name = M.pure rn := by
    unfold getItemStrM
    rw [hrn]
  cases harn : (p.roles.find? (fun r => r.1 == rn)).map (fun r => r.2) with
  | none =>
    unfold _create_lambda_from_meta is_file_exists get_function
      check_if_role_exists at h
    simp only [bind_apply, hvM, hkM, hroleM, M.pure, readOp, emit, logWarn,
      hfile, hfn0, harn, Bool.not_true, if_false, Bool.false_eq_true,
      throwM] at h
    simp at h
  | some ra =>
  cases hdl : dl_target_arn_of cfg meta with
  | error e =>
    unfold _create_lambda_from_meta is_file_exists get_function
      check_if_role_exists at h
    simp only [bind_apply, hvM, hkM, hroleM, M.pure, readOp, emit, logWarn,
      hfile, hfn0, harn, hdl, liftE, Bool.not_true, if_false,
      Bool.false_eq_true, throwM] at h
    simp at h
  | ok dl =>
  cases hfunc : dictGet meta Key.func_name with
  | none =>
    have hfErr : getItem meta Key.func_name
        = throwM (Err.keyError Key.func_name) := by
      unfold getItem
      rw [hfunc]
    unfold _create_lambda_from_meta is_file_exists get_function
      check_if_role_exists at h
    simp only [bind_apply, hvM, hkM, hroleM, M.pure, readOp, emit, logWarn,
      hfile, hfn0, harn, hdl, liftE, hfErr, Bool.not_true, if_false,
      Bool.false_eq_true, throwM] at h
    simp at h
  | some fv =>
  have hfuncM : getItem meta Key.func_name = M.pure fv := by
    unfold getItem
    rw [hfunc]
  cases hrt : dictGet meta Key.runtime with
  | none =>
    have htErr : getItemStrM meta Key.runtime
        = throwM (Err.keyError Key.runtime) := by
      unfold getItemStrM
      rw [hrt]
    unfold _create_lambda_from_meta is_file_exists get_function
      check_if_role_exists at h
    simp only [bind_apply, hvM, hkM, hroleM, hfuncM, M.pure, readOp, emit,
      logWarn, hfile, hfn0, harn, hdl, liftE, htErr, Bool.not_true, if_false,
      Bool.false_eq_true, throwM] at h
    simp at h
  | some rtv =>
  cases rtv with
  | n x =>
    have htErr : getItemStrM meta Key.runtime = throwM Err.typeError := by
      unfold getItemStrM
      rw [hrt]
    unfold _create_lambda_from_meta is_file_exists get_function
      check_if_role_exists at h
    simp only [bind_apply, hvM, hkM, hroleM, hfuncM, M.pure, readOp, emit,
      logWarn, hfile, hfn0, harn, hdl, liftE, htErr, Bool.not_true, if_false,
      Bool.false_eq_true, throwM] at h
    simp at h
  | triggers x =>
    have htErr : getItemStrM meta Key.runtime = throwM Err.typeError := by
      unfold getItemStrM
      rw [hrt]
    unfold _create_lambda_from_meta is_file_exists get_function
      check_if_role_exists at h
    simp only [bind_apply, hvM, hkM, hroleM, hfuncM, M.pure, readOp, emit,
      logWarn, hfile, hfn0, harn, hdl, liftE, htErr, Bool.not_true, if_false,
      Bool.false_eq_true, throwM] at h
    simp at h
  | s rt =>
  have hrtM : getItemStrM meta Key.runtime = M.pure rt := by
    unfold getItemStrM
    rw [hrt]
  cases hmem : dictGet meta Key.memory with
  | none =>
    have hmErr : getItem meta Key.memory = throwM (Err.keyError Key.memory) := by
      unfold getItem
      rw [hmem]
    unfold _create_lambda_from_meta is_file_exists get_function
      check_if_role_exists at h
    simp only [bind_apply, hvM, hkM, hroleM, hfuncM, hrtM, M.pure, readOp, emit,
      logWarn, hfile, hfn0, harn, hdl, liftE, hmErr, Bool.not_true, if_false,
      Bool.false_eq_true, throwM] at h
    simp at h
  | some mv =>
  have hmemM : getItem meta Key.memory = M.pure mv := by
    unfold getItem
    rw [hmem]
  cases htime : dictGet meta Key.timeout with
  | none =>
    have htoErr : getItem meta Key.timeout
        = throwM (Err.keyError Key.timeout) := by
      unfold getItem
      rw [htime]
    unfold _create_lambda_from_meta is_file_exists get_function
      check_if_role_exists at h
    simp only [bind_apply, hvM, hkM, hroleM, hfuncM, hrtM, hmemM, M.pure,
      readOp, emit, logWarn, hfile, hfn0, harn, hdl, liftE, htoErr,
      Bool.not_true, if_false, Bool.false_eq_true, throwM] at h
    simp at h
  | some tv =>
  have htimeM : getItem meta Key.timeout = M.pure tv := by
    unfold getItem
    rw [htime]
  have hrun : _create_lambda_from_meta cfg name meta ⟨p, []⟩
      = (concurrency_section name meta >>= fun _ =>
          event_sources_section cfg name (lambdaArnOf cfg name) rn meta >>= fun _ =>
          logInfo "Created lambda %s." >>= fun _ =>
          M.pure (describe_lambda name meta
            ⟨name, lambdaArnOf cfg name, "Configuration"⟩))
        ⟨{ p with functions := ⟨name, lambdaArnOf cfg name, "Configuration"⟩ :: p.functions },
         [Event.call (Call.isFileExists cfg.deploy_target_bucket key),
          Event.call (Call.getFunction name),
          Event.call (Call.checkIfRoleExists rn),
          Event.call (Call.createLambda name fv ra (pyLower rt) mv tv
            cfg.deploy_target_bucket key (dictGet meta Key.env_variables)
            (dictGet meta Key.subnet_ids)
            (dictGet meta Key.security_group_ids) dl
            (dictGet meta Key.tracing_mode)),
          Event.call (Call.sleep 10),
          Event.call (Call.getFunction name)]⟩ := by
    unfold _create_lambda_from_meta is_file_exists get_function
      check_if_role_exists create_lambda
    simp only [bind_apply, readOp, mutOp, emit, sleepM, M.pure, liftE, throwM,
      hvM, hkM, hfile, hfn0, hroleM, harn, hdl, hfuncM, hrtM, hmemM, htimeM,
      Bool.not_true, if_true, if_false, Bool.false_eq_true, List.find?,
      beq_self_eq_true, List.nil_append, List.cons_append, List.append_assoc]
  rw [hrun] at h
  obtain ⟨hout, hfns, hs3⟩ := seq_extract _ _ _ _ _ _ _
    (pres_conc name meta) (pres_ev cfg name (lambdaArnOf cfg name) rn meta) h
  have hfns2 : s1.prov.functions
      = (⟨name, lambdaArnOf cfg name, "Configuration"⟩ : LambdaFn) :: p.functions := hfns
  have hs32 : s1.prov.s3Files = p.s3Files := hs3
  refine ⟨key, ⟨name, lambdaArnOf cfg name, "Configuration"⟩, rfl, ?_, hout, ?_⟩
  · rw [hfns2]
    simp [List.find?]
  · rw [lambda_run_exists cfg name meta key
      ⟨name, lambdaArnOf cfg name, "Configuration"⟩ ⟨s1.prov, []⟩ hv hkey
      (by rw [hs32]; exact hfile)
      (by rw [hfns2]; simp [List.find?])]
    rw [hout]
    simp


/-- C1: idempotence of reconciliation.  For both resource kinds, whenever a
first reconciliation of `(name, meta)` succeeds, a second reconciliation run
from the resulting provider state (which now reports the resource as
existing) succeeds with the *same* output mapping — same ProviderResourceId
key, same description of the existing resource — and its trace holds only
the pre-checks and the already-exists log line: in particular it issues no
second create call. -/
theorem claim_C1_reconcile_idempotent :
    (∀ (cfg : Config) (name : String) (meta : Meta) (p : ProviderState)
       (out1 : List (String × DescriptionObj String)) (s1 : St),
       runOn (_create_lambda_from_meta cfg name meta) p = (Except.ok out1, s1) →
       ∃ (key : MValue) (fn : LambdaFn),
         dictGet meta Key.S3_PATH_NAME = some key
         ∧ s1.prov.functions.find? (fun f => f.name == name) = some fn
         ∧ out1 = describe_lambda name meta fn
         ∧ runOn (_create_lambda_from_meta cfg name meta) s1.prov
             = (Except.ok out1,
                ⟨s1.prov,
                 [Event.call (Call.isFileExists cfg.deploy_target_bucket key),
                  Event.call (Call.getFunction name),
                  Event.logWarn "%s lambda exists."]⟩))
    ∧ (∀ (cfg : Config) (name : String) (meta : Meta) (p : ProviderState)
         (out1 : List (String × DescriptionObj StreamInfo)) (s1 : St),
       runOn (_create_kinesis_stream_from_meta cfg name meta) p
         = (Except.ok out1, s1) →
       runOn (_create_kinesis_stream_from_meta cfg name meta) s1.prov
         = (Except.ok out1,
            ⟨s1.prov, [Event.call (Call.getStream name),
                       Event.logWarn "%s kinesis stream exists"]⟩)) :=
  ⟨idempotent_second_run_lambda, idempotent_second_run_kinesis⟩

/-- Provider state after the successful first reconciliation of `fn1` from
`prov0` with `metaDl`. -/
def provFn1After : ProviderState :=
  { s3Files := [("b1", MValue.s "pkg.zip")],
    functions := [⟨"fn1", "arn:aws:lambda:r1:a1:function:fn1", "Configuration"⟩],
    roles := [("role1", "arn:role1")], streams := [], queues := ["q1"],
    buckets := [], tablesWithStream := [], logGroups := [],
    unresolvedConcurrency := 0, deleteLambdaFault := none,
    removeStreamFault := none }

/-- Trace of that first reconciliation. -/
def traceFn1 : List Event :=
  [Event.call (Call.isFileExists "b1" (MValue.s "pkg.zip")),
   Event.call (Call.getFunction "fn1"),
   Event.call (Call.checkIfRoleExists "role1"),
   Event.call (Call.createLambda "fn1" (MValue.s "handler") "arn:role1"
     "python" (MValue.n 128) (MValue.n 30) "b1" (MValue.s "pkg.zip")
     none none none (some "arn:aws:sqs:r1:a1:dlq") none),
   Event.call (Call.sleep 10),
   Event.call (Call.getFunction "fn1"),
   Event.logInfo "Created lambda %s."]

/-- Output mapping of that first reconciliation. -/
def outFn1 : List (String × DescriptionObj String) :=
  [("arn:aws:lambda:r1:a1:function:fn1",
    { response := "Configuration", resource_name := "fn1",
      resource_meta := metaDl })]

/-- Provider state after the successful first reconciliation of stream `st1`
from `prov0` with `metaStream`. -/
def provSt1After : ProviderState :=
  { s3Files := [("b1", MValue.s "pkg.zip")], functions := [],
    roles := [("role1", "arn:role1")],
    streams := [⟨"st1", "arn:aws:kinesis:r1:a1:stream/st1", "CREATING"⟩],
    queues := ["q1"], buckets := [], tablesWithStream := [], logGroups := [],
    unresolvedConcurrency := 0, deleteLambdaFault := none,
    removeStreamFault := none }

/-- Output mapping of that first stream reconciliation. -/
def outSt1 : List (String × DescriptionObj StreamInfo) :=
  [("arn:aws:kinesis:r1:a1:stream/st1",
    build_description_obj
      (⟨"st1", "arn:aws:kinesis:r1:a1:stream/st1", "CREATING"⟩ : StreamInfo)
      "st1" metaStream)]

/-- Witness for C1 at concrete inputs: after a successful first run of the
function reconciler (`fn1`) resp. the stream reconciler (`st1`), the second
run returns the identical mapping and issues no create call. -/
theorem claim_C1_reconcile_idempotent_witness :
    (∃ (key : MValue) (fn : LambdaFn),
       dictGet metaDl Key.S3_PATH_NAME = some key
       ∧ provFn1After.functions.find? (fun f => f.name == "fn1") = some fn
       ∧ outFn1 = describe_lambda "fn1" metaDl fn
       ∧ runOn (_create_lambda_from_meta cfg0 "fn1" metaDl) provFn1After
           = (Except.ok outFn1,
              ⟨provFn1After,
               [Event.call (Call.isFileExists "b1" key),
                Event.call (Call.getFunction "fn1"),
                Event.logWarn "%s lambda exists."]⟩))
    ∧ runOn (_create_kinesis_stream_from_meta cfg0 "st1" metaStream) provSt1After
        = (Except.ok outSt1,
           ⟨provSt1After, [Event.call (Call.getStream "st1"),
                           Event.logWarn "%s kinesis stream exists"]⟩) :=
  ⟨claim_C1_reconcile_idempotent.1 cfg0 "fn1" metaDl prov0 outFn1
     ⟨provFn1After, traceFn1⟩ (by decide),
   claim_C1_reconcile_idempotent.2 cfg0 "st1" metaStream prov0 outSt1
     ⟨provSt1After,
      [Event.call (Call.getStream "st1"),
       Event.call (Call.createStream "st1" (MValue.n 2)),
       Event.logInfo "Created kinesis stream %s.",
       Event.call (Call.getStream "st1")]⟩ (by decide)⟩

end Syndicate
